import Mathlib

/-!
Verification of the Teamleader API client (`teamleader/api.py`).

The source is a thin synchronous HTTP client: one request dispatcher
(`Teamleader._request`) that injects credentials, posts form data and
classifies the HTTP status, plus per-endpoint parameter shaping
(`add_contact`, `update_contact`, `get_segments`, `get_contacts`, ...).

The embedding below mirrors the Python code:

* Python runtime values that flow into payload dictionaries are modelled by
  `PyVal` (None, bool, int, float, str, `datetime.date`, the `self` object,
  list, dict).  A `datetime.date` is identified by the Unix timestamp that
  `time.mktime(d.timetuple())` produces for it, which is the only way the
  source consumes it.  `float` values are likewise identified by the integral
  seconds value relevant here.
* Python dictionaries are association lists (`Dict`) with the usual unique-key
  discipline; `dictSet` models `d[k] = v` (overwrite in place, else append),
  `dictPop` models `d.pop(k)` / `del d[k]`, `removeNones` models the
  `for key in data.keys(): if data[key] is None: del data[key]` loop.
* Each endpoint method is split into the payload the source builds from
  `locals()` (`...Locals`), its validation chain (`...Check`) and the
  wire-format conversions (`...Convert`); the endpoint function returns
  `Except ApiError Request`, where `.ok r` means the method hands exactly the
  request `r` to `_request` (one network call) and `.error e` means it raises
  before any network call.
* `requestClassify` models the status-code dispatch of `_request` on a decoded
  response; `requestEffect` models its mutation of the argument dictionary
  (with an explicit heap, because the claim under test is about aliasing of
  the mutable default argument).
* The ISO country/language tables come from the external `pycountry` package;
  per the spec these are an external collaborator consumed as a read-only
  lookup, so they are parameters (`countries`, `languages`) of the embedding.
-/

namespace Teamleader

/-- A Python runtime value as it can appear in the client's payload
dictionaries.  `vDate t` is a `datetime.date` whose
`time.mktime(d.timetuple())` equals `t`; `vFloat` is the float produced by
that conversion; `vObj` is the `Teamleader` instance itself (which leaks into
`locals()`); `vList` and `vDict` are the list/dict arguments. -/
inductive PyVal where
  | vNone : PyVal
  | vBool : Bool → PyVal
  | vInt : Int → PyVal
  | vFloat : Int → PyVal
  | vStr : String → PyVal
  | vDate : Int → PyVal
  | vObj : PyVal
  | vList : List PyVal → PyVal
  | vDict : List (String × PyVal) → PyVal

/-- `v is None` in Python. -/
def PyVal.isNone' : PyVal → Bool
  | .vNone => true
  | _ => false

/-- `type(v) == type([])` in Python. -/
def PyVal.isList : PyVal → Bool
  | .vList _ => true
  | _ => false

/-- `type(v) == type({})` in Python. -/
def PyVal.isDict : PyVal → Bool
  | .vDict _ => true
  | _ => false

/-- `type(v) == datetime.date` in Python. -/
def PyVal.isDate : PyVal → Bool
  | .vDate _ => true
  | _ => false

/-- The elements of a Python list value (empty on non-lists; the source only
reaches this after a successful `type(v) == type([])` check). -/
def PyVal.listItems : PyVal → List PyVal
  | .vList xs => xs
  | _ => []

/-- The items of a Python dict value (empty on non-dicts; the source only
reaches this after a successful `type(v) == type({})` check). -/
def PyVal.dictItems : PyVal → List (String × PyVal)
  | .vDict es => es
  | _ => []

/-- `time.mktime(v.timetuple())` for a `datetime.date` value. -/
def PyVal.dateTimestamp : PyVal → Int
  | .vDate t => t
  | _ => 0

/-- A Python dictionary with string keys, as the association list of its
items; keys are unique for every dict the source builds. -/
abbrev Dict := List (String × PyVal)

/-- `k in d` for a Python dict. -/
def dictContains (d : Dict) (k : String) : Bool :=
  d.any (fun p => p.1 == k)

/-- `d[k]` / `d.get(k)` for a Python dict: the value of the first entry
carrying key `k` (the only one, for the unique-key dicts the source builds). -/
def dictGet (d : Dict) (k : String) : Option PyVal :=
  ((d.filter (fun p => p.1 == k)).head?).map (fun p => p.2)

/-- `d[k] = v` for a Python dict: overwrite the existing entry in place, or
append a new one. -/
def dictSet (d : Dict) (k : String) (v : PyVal) : Dict :=
  if dictContains d k then d.map (fun p => if p.1 == k then (k, v) else p)
  else d ++ [(k, v)]

/-- `d.pop(k)` / `del d[k]` for a Python dict (the remaining items). -/
def dictPop (d : Dict) (k : String) : Dict :=
  d.filter (fun p => p.1 != k)

/-- The `for key in data.keys(): if data[key] is None: del data[key]` loop
that both `add_contact` and `update_contact` run on `locals()`. -/
def removeNones (d : Dict) : Dict :=
  d.filter (fun p => !(p.2.isNone'))

/-- `d.update(other)` for Python dicts: set every item of `other` into `d`. -/
def dictUpdate (d other : Dict) : Dict :=
  other.foldl (fun acc p => dictSet acc p.1 p.2) d

/-- How many entries of `d` carry key `k` (1 for a present key of a
well-formed dict, 0 for an absent one). -/
def countKey (d : Dict) (k : String) : Nat :=
  (d.filter (fun p => p.1 == k)).length

/-- `','.join(xs)` on a Python list of strings (the source only joins tag
lists, which hold strings; joining a non-string element raises a `TypeError`
in Python and is outside the behaviour claimed for the client). -/
def joinComma (xs : List PyVal) : String :=
  String.intercalate "," (xs.map (fun v => match v with | .vStr s => s | _ => ""))

/-- An outbound HTTP request as handed to `_request`: the endpoint name that
is spliced into `https://www.teamleader.be/api/{endpoint}.php` and the form
data. -/
structure Request where
  endpoint : String
  data : Dict

/-- An HTTP response as `_request` consumes it: the status code and the
JSON-decoded body `r.json()`. -/
structure HttpResponse where
  status : Nat
  body : PyVal

/-- `body['reason']` of a decoded response body, when the body is a JSON
object carrying that field. -/
def bodyReason (body : PyVal) : Option PyVal :=
  match body with
  | .vDict es => dictGet es "reason"
  | _ => none

/-- Modelled from the spec: the error taxonomy of §7.  The exception classes
live in `teamleader/exceptions.py`, which is not under `src/`; only their
constructor calls (`message=..., api_response=...`) are visible in
`api.py`.  Following the spec's taxonomy, `authenticationError` is the class
raised on 401 (`TeamleaderUnauthorizedError` in the source),
`badRequestError` on 400, `rateLimitExceededError` on 505, `unknownAPIError`
on any other non-200 status, and `invalidInputError` is raised locally before
any network call.  The remote errors carry the `reason` message and the raw
response. -/
inductive ApiError where
  | invalidInputError : String → ApiError
  | authenticationError : PyVal → HttpResponse → ApiError
  | badRequestError : PyVal → HttpResponse → ApiError
  | rateLimitExceededError : PyVal → HttpResponse → ApiError
  | unknownAPIError : PyVal → HttpResponse → ApiError

/-- The status-code dispatch of `Teamleader._request` (api.py lines 31-44),
applied to the decoded response: 401, 505 and 400 are checked in that order,
200 returns the decoded body, anything else is an unknown API error.  All
non-200 branches read `response['reason']` as the message; per the wire
contract every non-200 body carries that field, so the `.getD` default is
never reached in the claims below. -/
def requestClassify (r : HttpResponse) : Except ApiError PyVal :=
  let reason := (bodyReason r.body).getD .vNone
  if r.status = 401 then .error (.authenticationError reason r)
  else if r.status = 505 then .error (.rateLimitExceededError reason r)
  else if r.status = 400 then .error (.badRequestError reason r)
  else if r.status = 200 then .ok r.body
  else .error (.unknownAPIError reason r)

/-! ### `_request` as a state transformer on dictionaries

`_request(self, endpoint, data={})` mutates its `data` dictionary in place
(`data['api_group'] = ...; data['api_secret'] = ...`) before posting it.
Because the default value `{}` is a single dictionary object allocated once
when the method is defined, every call that omits `data` operates on that one
shared dictionary.  To state this aliasing behaviour we model dictionary
objects by references into an explicit heap. -/

/-- A reference to a Python dictionary object. -/
abbrev Ref := Nat

/-- The dictionary heap together with the reference held by `_request`'s
mutable default argument `data={}`. -/
structure ClientState where
  heap : Ref → Dict
  defaultData : Ref

/-- The credential-injection effect of `Teamleader._request` (api.py lines
26-30): resolve the `data` argument (the shared default dictionary when the
caller passes none), write `api_group` and then `api_secret` into that very
dictionary, and post it.  Returns the new heap, the reference that was
written, and the form data posted. -/
def requestEffect (group secret : String) (s : ClientState) (dataRef : Option Ref) :
    ClientState × Ref × Dict :=
  let r := dataRef.getD s.defaultData
  let d := dictSet (dictSet (s.heap r) "api_group" (.vStr group)) "api_secret" (.vStr secret)
  (⟨Function.update s.heap r d, s.defaultData⟩, r, d)

/-! ### Simple endpoints -/

/-- `Teamleader.get_users` (api.py line 57): one request with the
`show_inactive_users` flag coerced by `int(...)`. -/
def get_users (show_inactive_users : Bool) : Request :=
  ⟨"getUsers", [("show_inactive_users", .vInt (bif show_inactive_users then 1 else 0))]⟩

/-- The closed set of recognized `object_type` values of `get_segments`
(api.py line 89). -/
def segmentObjectTypes : List String :=
  ["crm_companies", "crm_contacts", "crm_todos", "crm_callbacks", "crm_meetings",
   "inv_invoices", "inv_creditnotes", "pro_projects", "sale_sales", "ticket_tickets"]

/-- `Teamleader.get_segments` (api.py lines 77-92): membership check on
`object_type`, then a single request carrying it. -/
def get_segments (object_type : String) : Except ApiError Request :=
  if !(segmentObjectTypes.contains object_type) then
    .error (.invalidInputError "Invalid contents of object_type.")
  else .ok ⟨"getSegments", [("object_type", .vStr object_type)]⟩

/-- `Teamleader.delete_contact` (api.py line 270). -/
def delete_contact (contact_id : PyVal) : Request :=
  ⟨"deleteContact", [("contact_id", contact_id)]⟩

/-- `Teamleader.link_contact_company` (api.py line 281): the dict literal
always contains the `function` key, also when the optional argument was left
at its default `None`. -/
def link_contact_company (contact_id company_id : PyVal) (function : PyVal) : Request :=
  ⟨"linkContactToCompany",
   [("contact_id", contact_id), ("company_id", company_id),
    ("mode", .vStr "link"), ("function", function)]⟩

/-- `Teamleader.unlink_contact_company` (api.py line 291). -/
def unlink_contact_company (contact_id company_id : PyVal) : Request :=
  ⟨"linkContactToCompany",
   [("contact_id", contact_id), ("company_id", company_id), ("mode", .vStr "unlink")]⟩

/-! ### Shared validators of `add_contact` / `update_contact` -/

/-- `gender is not None and gender not in ['M', 'F', 'U']`. -/
def genderInvalid : PyVal → Bool
  | .vNone => false
  | .vStr g => !(["M", "F", "U"].contains g)
  | _ => true

/-- `s.upper()` in Python, for the ASCII country/language codes the source
validates (character-wise upper-casing; structurally recursive so that
concrete instances evaluate). -/
def pyUpper (s : String) : String := ⟨s.data.map Char.toUpper⟩

/-- `s.lower()` in Python, for the ASCII codes the source validates. -/
def pyLower (s : String) : String := ⟨s.data.map Char.toLower⟩

/-- The `pycountry.countries.get(alpha2=country.upper())` lookup inside its
`try`/bare-`except`: succeeds iff `country` is a string whose upper-casing is
in the (parameterised) ISO 3166-1 alpha-2 table; on a non-string the
`.upper()` attribute access already raises inside the `try`, so any
non-string non-None value is invalid as well.  `None` skips the check. -/
def countryInvalid (countries : List String) : PyVal → Bool
  | .vNone => false
  | .vStr c => !(countries.contains (pyUpper c))
  | _ => true

/-- The `pycountry.languages.get(iso639_1_code=language.lower())` lookup
inside its `try`/bare-`except`, against the (parameterised) ISO 639-1
table of lower-case codes. -/
def languageInvalid (languages : List String) : PyVal → Bool
  | .vNone => false
  | .vStr l => !(languages.contains (pyLower l))
  | _ => true

/-- `date_of_birth is not None and type(date_of_birth) != datetime.date`. -/
def dobInvalid (v : PyVal) : Bool :=
  !(v.isNone') && !(v.isDate)

/-- `int(v)` as applied to the boolean-documented `newsletter` argument
(`int` of a Python bool is 0/1; `int` of an int/float is its integral value;
on other types Python raises a `TypeError`/`ValueError`, which is outside the
claimed behaviour and left as the identity here). -/
def pyIntConv : PyVal → PyVal
  | .vBool b => .vInt (bif b then 1 else 0)
  | .vInt n => .vInt n
  | .vFloat n => .vInt n
  | v => v

/-! ### `add_contact` -/

/-- The arguments of `Teamleader.add_contact` (api.py lines 94-98).  Wherever
the Python default is `None` the unset value is `.vNone`; `tags` defaults to
`[]`, `custom_fields` to `{}`; the two automerge flags default to `False` and
are documented booleans, modelled as `Bool` (the source applies `int(...)` to
them unconditionally). -/
structure AddContactArgs where
  forename : PyVal
  surname : PyVal
  email : PyVal
  salutation : PyVal
  telephone : PyVal
  gsm : PyVal
  website : PyVal
  country : PyVal
  zipcode : PyVal
  city : PyVal
  street : PyVal
  number : PyVal
  language : PyVal
  gender : PyVal
  date_of_birth : PyVal
  description : PyVal
  newsletter : PyVal
  tags : PyVal
  automerge_by_name : Bool
  automerge_by_email : Bool
  custom_fields : PyVal
  tracking : PyVal
  tracking_long : PyVal

/-- `add_contact` arguments with every optional argument left at its Python
default. -/
def addContactDefaults (forename surname email : PyVal) : AddContactArgs :=
  ⟨forename, surname, email, .vNone, .vNone, .vNone, .vNone, .vNone, .vNone, .vNone,
   .vNone, .vNone, .vNone, .vNone, .vNone, .vNone, .vNone, .vList [], false, false,
   .vDict [], .vNone, .vNone⟩

/-- `data = locals()` at the top of `add_contact` (api.py line 134): all
parameters plus the bound `self`. -/
def addContactLocals (a : AddContactArgs) : Dict :=
  [("self", .vObj), ("forename", a.forename), ("surname", a.surname),
   ("email", a.email), ("salutation", a.salutation), ("telephone", a.telephone),
   ("gsm", a.gsm), ("website", a.website), ("country", a.country),
   ("zipcode", a.zipcode), ("city", a.city), ("street", a.street),
   ("number", a.number), ("language", a.language), ("gender", a.gender),
   ("date_of_birth", a.date_of_birth), ("description", a.description),
   ("newsletter", a.newsletter), ("tags", a.tags),
   ("automerge_by_name", .vBool a.automerge_by_name),
   ("automerge_by_email", .vBool a.automerge_by_email),
   ("custom_fields", a.custom_fields), ("tracking", a.tracking),
   ("tracking_long", a.tracking_long)]

/-- The argument-validation chain of `add_contact` (api.py lines 140-162), in
source order; `none` means all checks passed. -/
def addContactCheck (countries languages : List String) (a : AddContactArgs) :
    Option ApiError :=
  if genderInvalid a.gender then
    some (.invalidInputError "Invalid contents of argument gender.")
  else if !(a.tags.isList) then
    some (.invalidInputError "Invalid contents of argument tags.")
  else if !(a.custom_fields.isDict) then
    some (.invalidInputError "Invalid contents of argument custom_fields.")
  else if countryInvalid countries a.country then
    some (.invalidInputError "Invalid contents of argument country.")
  else if languageInvalid languages a.language then
    some (.invalidInputError "Invalid contents of argument language.")
  else if dobInvalid a.date_of_birth then
    some (.invalidInputError "Invalid contents of argument date_of_birth.")
  else none

/-- The wire-format conversions of `add_contact` (api.py lines 165-178):
pop `tags` into the comma-joined `add_tag_by_string`, spread `custom_fields`
into `custom_field_<id>` keys, pop `date_of_birth` into the `dob` timestamp,
coerce `newsletter` by `int(...)` when present, and always set the two
automerge flags to `int(...)` of their boolean. -/
def addContactConvert (a : AddContactArgs) (d : Dict) : Dict :=
  let d := dictSet (dictPop d "tags") "add_tag_by_string"
      (.vStr (joinComma a.tags.listItems))
  let d := a.custom_fields.dictItems.foldl
      (fun acc p => dictSet acc ("custom_field_" ++ p.1) p.2) (dictPop d "custom_fields")
  let d := if a.date_of_birth.isNone' then d
      else dictSet (dictPop d "date_of_birth") "dob" (.vFloat a.date_of_birth.dateTimestamp)
  let d := if a.newsletter.isNone' then d
      else dictSet d "newsletter" (pyIntConv a.newsletter)
  let d := dictSet d "automerge_by_name" (.vInt (bif a.automerge_by_name then 1 else 0))
  let d := dictSet d "automerge_by_email" (.vInt (bif a.automerge_by_email then 1 else 0))
  d

/-- `Teamleader.add_contact` (api.py lines 94-180): validate, then hand one
`addContact` request to `_request`; any validation failure raises before any
network call. -/
def add_contact (countries languages : List String) (a : AddContactArgs) :
    Except ApiError Request :=
  match addContactCheck countries languages a with
  | some e => .error e
  | none =>
      .ok ⟨"addContact", addContactConvert a (removeNones (addContactLocals a))⟩

/-! ### `update_contact` -/

/-- The arguments of `Teamleader.update_contact` (api.py lines 182-186).
`track_changes` defaults to `True` and is a documented boolean; unlike the
automerge flags of `add_contact`, the source never converts it. -/
structure UpdateContactArgs where
  contact_id : PyVal
  track_changes : Bool
  forename : PyVal
  surname : PyVal
  email : PyVal
  telephone : PyVal
  gsm : PyVal
  website : PyVal
  country : PyVal
  zipcode : PyVal
  city : PyVal
  street : PyVal
  number : PyVal
  language : PyVal
  gender : PyVal
  date_of_birth : PyVal
  description : PyVal
  tags : PyVal
  del_tags : PyVal
  custom_fields : PyVal
  linked_company_ids : PyVal

/-- `update_contact` arguments with every optional argument left at its
Python default. -/
def updateContactDefaults (contact_id : PyVal) : UpdateContactArgs :=
  ⟨contact_id, true, .vNone, .vNone, .vNone, .vNone, .vNone, .vNone, .vNone, .vNone,
   .vNone, .vNone, .vNone, .vNone, .vNone, .vNone, .vNone, .vList [], .vList [],
   .vDict [], .vNone⟩

/-- `data = locals()` at the top of `update_contact` (api.py line 216). -/
def updateContactLocals (a : UpdateContactArgs) : Dict :=
  [("self", .vObj), ("contact_id", a.contact_id),
   ("track_changes", .vBool a.track_changes), ("forename", a.forename),
   ("surname", a.surname), ("email", a.email), ("telephone", a.telephone),
   ("gsm", a.gsm), ("website", a.website), ("country", a.country),
   ("zipcode", a.zipcode), ("city", a.city), ("street", a.street),
   ("number", a.number), ("language", a.language), ("gender", a.gender),
   ("date_of_birth", a.date_of_birth), ("description", a.description),
   ("tags", a.tags), ("del_tags", a.del_tags),
   ("custom_fields", a.custom_fields), ("linked_company_ids", a.linked_company_ids)]

/-- The argument-validation chain of `update_contact` (api.py lines 222-247),
in source order.  Note the message of the `del_tags` type check (api.py line
229): the source raises `"Invalid contents of argument tags."` there, naming
`tags` instead of `del_tags`. -/
def updateContactCheck (countries languages : List String) (a : UpdateContactArgs) :
    Option ApiError :=
  if genderInvalid a.gender then
    some (.invalidInputError "Invalid contents of argument gender.")
  else if !(a.tags.isList) then
    some (.invalidInputError "Invalid contents of argument tags.")
  else if !(a.del_tags.isList) then
    some (.invalidInputError "Invalid contents of argument tags.")
  else if !(a.custom_fields.isDict) then
    some (.invalidInputError "Invalid contents of argument custom_fields.")
  else if countryInvalid countries a.country then
    some (.invalidInputError "Invalid contents of argument country.")
  else if languageInvalid languages a.language then
    some (.invalidInputError "Invalid contents of argument language.")
  else if dobInvalid a.date_of_birth then
    some (.invalidInputError "Invalid contents of argument date_of_birth.")
  else none

/-- The wire-format conversions of `update_contact` (api.py lines 251-258):
as in `add_contact`, plus `remove_tag_by_string` from `del_tags`, and no
`newsletter` or automerge handling — in particular `track_changes` passes
through untouched. -/
def updateContactConvert (a : UpdateContactArgs) (d : Dict) : Dict :=
  let d := dictSet (dictPop d "tags") "add_tag_by_string"
      (.vStr (joinComma a.tags.listItems))
  let d := dictSet (dictPop d "del_tags") "remove_tag_by_string"
      (.vStr (joinComma a.del_tags.listItems))
  let d := a.custom_fields.dictItems.foldl
      (fun acc p => dictSet acc ("custom_field_" ++ p.1) p.2) (dictPop d "custom_fields")
  let d := if a.date_of_birth.isNone' then d
      else dictSet (dictPop d "date_of_birth") "dob" (.vFloat a.date_of_birth.dateTimestamp)
  d

/-- `Teamleader.update_contact` (api.py lines 182-260): validate, then hand
one `updateContact` request to `_request`. -/
def update_contact (countries languages : List String) (a : UpdateContactArgs) :
    Except ApiError Request :=
  match updateContactCheck countries languages a with
  | some e => .error e
  | none =>
      .ok ⟨"updateContact", updateContactConvert a (removeNones (updateContactLocals a))⟩

/-! ### `get_contacts` and its pagination loop -/

/-- The arguments of `Teamleader.get_contacts` (api.py line 293); the four
scalar filters default to `None`, `selected_customfields` to `[]`. -/
structure GetContactsArgs where
  query : PyVal
  modified_since : PyVal
  filter_by_tag : PyVal
  segment_id : PyVal
  selected_customfields : List String

/-- `get_contacts` arguments all left at their Python defaults. -/
def getContactsDefaults : GetContactsArgs :=
  ⟨.vNone, .vNone, .vNone, .vNone, []⟩

/-- The filter dictionary `get_contacts` computes once before its loop
(api.py lines 312-322): each filter is added only when set, `query` under the
wire name `searchby`, `modified_since` under `modifiedsince`, and a non-empty
`selected_customfields` list comma-joined. -/
def getContactsBaseData (g : GetContactsArgs) : Dict :=
  let d : Dict := []
  let d := if g.query.isNone' then d else dictSet d "searchby" g.query
  let d := if g.modified_since.isNone' then d else dictSet d "modifiedsince" g.modified_since
  let d := if g.filter_by_tag.isNone' then d else dictSet d "filter_by_tag" g.filter_by_tag
  let d := if g.segment_id.isNone' then d else dictSet d "segment_id" g.segment_id
  let d := if 0 < g.selected_customfields.length then
      dictSet d "selected_customfields"
        (.vStr (String.intercalate "," g.selected_customfields))
    else d
  d

/-- The module-level page size `amount = 100` (api.py line 17). -/
def amount : Nat := 100

/-- `page_data = {'amount': amount, 'pageno': pageno}; page_data.update(data)`
(api.py lines 327-328). -/
def pageData (base : Dict) (pageno : Nat) : Dict :=
  dictUpdate [("amount", .vInt (amount : Nat)), ("pageno", .vInt (pageno : Nat))] base

/-- The `while there_are_more_pages` generator loop shared by the paginated
endpoints (api.py lines 324-333 for `get_contacts`): request the current
page, yield its records, and continue while the page was non-empty.  The
server's decoded response to the page-`n` request is `server n`; `fuel`
bounds the number of iterations modelled (the claims below supply enough fuel
to reach the first empty page, where the loop terminates).  The result is the
list of yielded records together with the requests issued, or `none` when the
fuel ran out before the loop terminated. -/
def getContactsLoop (endpoint : String) (base : Dict) (server : Nat → List PyVal) :
    Nat → Nat → Option (List PyVal × List Request)
  | 0, _ => none
  | fuel + 1, pageno =>
    let pd := pageData base pageno
    let contacts := server pageno
    if 0 < contacts.length then
      match getContactsLoop endpoint base server fuel (pageno + 1) with
      | none => none
      | some pr => some (contacts ++ pr.1, ⟨endpoint, pd⟩ :: pr.2)
    else some ([], [⟨endpoint, pd⟩])

/-- `Teamleader.get_contacts` (api.py lines 293-333): compute the filter
dictionary once, then run the pagination loop from page 0. -/
def get_contacts (g : GetContactsArgs) (server : Nat → List PyVal) (fuel : Nat) :
    Option (List PyVal × List Request) :=
  getContactsLoop "getContacts" (getContactsBaseData g) server fuel 0

/-- `Teamleader.get_contacts_by_company` (api.py lines 349-361): a single
`getContactsByCompany` request carrying only `company_id`, whose decoded
response is yielded record by record — no loop, no page counter, no page
size.  Returns the yielded records and the requests issued. -/
def get_contacts_by_company (company_id : PyVal) (response : List PyVal) :
    List PyVal × List Request :=
  (response, [⟨"getContactsByCompany", [("company_id", company_id)]⟩])

/-- Modelled from the spec: the §4.3 pagination algorithm that the spec
asserts also for `get_contacts_by_company` — "maintain a zero-based page
counter; on each advance, issue a request for the current page with a fixed
page size (100 records); if the page returned is non-empty, yield each record
in order and advance the counter; if the page returned is empty, the sequence
terminates."  It is the loop of `getContactsLoop` run over the given base
data. -/
def paginationAlgorithm (endpoint : String) (base : Dict) (server : Nat → List PyVal)
    (fuel : Nat) : Option (List PyVal × List Request) :=
  getContactsLoop endpoint base server fuel 0

/-! ### Dictionary lemmas -/

theorem dictContains_dictSet (d : Dict) (k : String) (v : PyVal) (k' : String) :
    dictContains (dictSet d k v) k' = (dictContains d k' || (k' == k)) := by
  unfold dictSet
  by_cases hk : k' = k
  · subst hk
    split
    · next h =>
      simp only [beq_self_eq_true, Bool.or_true]
      simp only [dictContains, List.any_map, List.any_eq_true] at h ⊢
      obtain ⟨p, hp, hpk⟩ := h
      refine ⟨p, hp, ?_⟩
      simp [Function.comp, hpk]
    · simp [dictContains, List.any_append]
  · have hbk : (k' == k) = false := by simp [hk]
    rw [hbk, Bool.or_false]
    split
    · simp only [dictContains, List.any_map]
      congr 1
      funext p
      simp only [Function.comp]
      split
      · next hpk =>
        have h1 : p.1 = k := by simpa using hpk
        rw [h1]
      · rfl
    · simp only [dictContains, List.any_append]
      have : (([(k, v)] : Dict).any fun p => p.1 == k') = false := by
        simp [Ne.symm hk]
      rw [this, Bool.or_false]

theorem dictContains_dictPop (d : Dict) (k k' : String) :
    dictContains (dictPop d k) k' = (dictContains d k' && (k' != k)) := by
  unfold dictPop dictContains
  rw [List.any_filter]
  by_cases hk : k' = k
  · subst hk
    simp only [bne_self_eq_false, Bool.and_false]
    rw [List.any_eq_false]
    intro p _
    simp only [Bool.and_eq_true, bne_iff_ne, beq_iff_eq]
    rintro ⟨h1, h2⟩
    exact h1 h2
  · have hbk : (k' != k) = true := by simp [hk]
    rw [hbk, Bool.and_true]
    congr 1
    funext p
    by_cases hp : p.1 = k'
    · simp [hp, hk]
    · simp [hp]

theorem dictContains_removeNones (d : Dict) (k : String) :
    dictContains (removeNones d) k = d.any (fun p => !(p.2.isNone') && p.1 == k) := by
  unfold removeNones dictContains
  rw [List.any_filter]

theorem dictContains_foldl_set (es : List (String × PyVal)) (f : String → String)
    (d : Dict) (k : String) :
    dictContains (es.foldl (fun acc p => dictSet acc (f p.1) p.2) d) k
      = (dictContains d k || es.any (fun p => k == f p.1)) := by
  induction es generalizing d with
  | nil => simp
  | cons p rest ih =>
    rw [List.foldl_cons, ih, dictContains_dictSet, List.any_cons, Bool.or_assoc]

theorem dictGet_dictSet_ne (d : Dict) (k : String) (v : PyVal) (k' : String)
    (h : k' ≠ k) : dictGet (dictSet d k v) k' = dictGet d k' := by
  unfold dictGet dictSet
  split
  · rw [List.map_filter]
    have hcongr : d.filter ((fun p => p.1 == k') ∘ fun p => if p.1 == k then (k, v) else p)
        = d.filter (fun p => p.1 == k') := by
      apply List.filter_congr'
      intro p _
      simp only [Function.comp]
      split
      · next hpk =>
        have h1 : p.1 = k := by simpa using hpk
        rw [h1]
      · rfl
    rw [hcongr]
    congr 1
    cases hf : d.filter (fun p => p.1 == k') with
    | nil => rfl
    | cons q t =>
      have hq : (fun p => p.1 == k') q = true := by
        have : q ∈ d.filter (fun p => p.1 == k') := by rw [hf]; exact List.mem_cons_self q t
        exact (List.mem_filter.mp this).2
      simp only [List.head?_cons, List.map_cons, Option.some.injEq]
      have hq1 : q.1 = k' := by simpa using hq
      have : (q.1 == k) = false := by simp [hq1, h]
      simp [this]
  · rw [List.filter_append, List.head?_append]
    have : ([(k, v)] : Dict).filter (fun p => p.1 == k') = [] := by
      simp [Ne.symm h]
    rw [this]
    simp

theorem countKey_dictSet_ne (d : Dict) (k : String) (v : PyVal) (k' : String)
    (h : k' ≠ k) : countKey (dictSet d k v) k' = countKey d k' := by
  unfold countKey dictSet
  split
  · rw [List.map_filter, List.length_map]
    congr 1
    apply List.filter_congr'
    intro p _
    simp only [Function.comp]
    split
    · next hpk =>
      have h1 : p.1 = k := by simpa using hpk
      rw [h1]
    · rfl
  · rw [List.filter_append, List.length_append]
    have : ([(k, v)] : Dict).filter (fun p => p.1 == k') = [] := by
      simp [Ne.symm h]
    rw [this]
    simp

theorem dictSet_absent (d : Dict) (k : String) (v : PyVal)
    (h : dictContains d k = false) : dictSet d k v = d ++ [(k, v)] := by
  unfold dictSet
  rw [h]
  simp

theorem dictGet_absent (d : Dict) (k : String) (h : dictContains d k = false) :
    dictGet d k = none := by
  unfold dictGet
  have : d.filter (fun p => p.1 == k) = [] := by
    rw [List.filter_eq_nil_iff]
    intro p hp hpk
    rw [dictContains, List.any_eq_false] at h
    exact h p hp hpk
  rw [this]
  rfl

theorem countKey_absent (d : Dict) (k : String) (h : dictContains d k = false) :
    countKey d k = 0 := by
  unfold countKey
  have : d.filter (fun p => p.1 == k) = [] := by
    rw [List.filter_eq_nil_iff]
    intro p hp hpk
    rw [dictContains, List.any_eq_false] at h
    exact h p hp hpk
  rw [this]
  rfl

theorem dictGet_append (d e : Dict) (k : String) :
    dictGet (d ++ e) k = (dictGet d k).or (dictGet e k) := by
  unfold dictGet
  rw [List.filter_append, List.head?_append]
  cases (d.filter (fun p => p.1 == k)).head? <;> simp

theorem countKey_append (d e : Dict) (k : String) :
    countKey (d ++ e) k = countKey d k + countKey e k := by
  unfold countKey
  rw [List.filter_append, List.length_append]

/-! ### String facts about the `custom_field_` prefix -/

theorem customfield_data (k : String) :
    ("custom_field_" ++ k).data = "custom_field_".data ++ k.data := rfl

theorem customfield_length (k : String) :
    ("custom_field_" ++ k).length = 13 + k.length := by
  have h : "custom_field_".length = 13 := rfl
  rw [String.length_append, h]

theorem customfield_ne_of_short (k s : String) (h : s.length < 13) :
    ("custom_field_" ++ k) ≠ s := by
  intro he
  have hl := congrArg String.length he
  rw [customfield_length] at hl
  omega

theorem customfield_ne_of_head (k s : String) (h : s.data.head? ≠ some 'c') :
    ("custom_field_" ++ k) ≠ s := by
  intro he
  apply h
  rw [← he]
  rfl

theorem customfield_ne_customfields (k : String) :
    ("custom_field_" ++ k) ≠ "custom_fields" := by
  intro he
  have h12 := congrArg (fun s => s.data[12]?) he
  simp only [customfield_data] at h12
  rw [List.getElem?_append, if_pos (by decide)] at h12
  exact absurd h12 (by decide)

theorem customfield_inj {a b : String}
    (h : "custom_field_" ++ a = "custom_field_" ++ b) : a = b := by
  have h2 := congrArg String.data h
  simp only [customfield_data] at h2
  exact String.ext (List.append_cancel_left h2)

/-! ### Claims -/

/-- C1: For every HTTP response to a Client request: if the status is 200 the
call returns the decoded JSON body; if 401 it fails with the authentication
error whose message is the body's `reason` field; if 400 it fails with the
bad-request error with the body's `reason`; if 505 it fails with the
rate-limit-exceeded error; and for any other status it fails with the
unknown-API error with the body's `reason` — each error carrying the raw
response. -/
theorem c1_status_code_dispatch (r : HttpResponse) (m : PyVal)
    (hm : bodyReason r.body = some m) :
    (r.status = 200 → requestClassify r = .ok r.body) ∧
    (r.status = 401 → requestClassify r = .error (.authenticationError m r)) ∧
    (r.status = 400 → requestClassify r = .error (.badRequestError m r)) ∧
    (r.status = 505 → requestClassify r = .error (.rateLimitExceededError m r)) ∧
    (r.status ≠ 200 → r.status ≠ 401 → r.status ≠ 400 → r.status ≠ 505 →
      requestClassify r = .error (.unknownAPIError m r)) := by
  unfold requestClassify
  rw [hm]
  refine ⟨?_, ?_, ?_, ?_, ?_⟩ <;> intros <;> simp_all

/-- Witness for C1 at the spec's own example: status 401 with body
`{"reason": "bad credentials"}` fails with the authentication error carrying
message "bad credentials" and the raw response. -/
theorem c1_status_code_dispatch_witness :
    requestClassify ⟨401, .vDict [("reason", .vStr "bad credentials")]⟩ =
      .error (.authenticationError (.vStr "bad credentials")
        ⟨401, .vDict [("reason", .vStr "bad credentials")]⟩) :=
  (c1_status_code_dispatch ⟨401, .vDict [("reason", .vStr "bad credentials")]⟩
    (.vStr "bad credentials") rfl).2.1 rfl

/-- Splitting off the first index of a shifted `List.range` map. -/
theorem map_range_shift {α : Type} (f : Nat → α) (n p : Nat) :
    (List.range (n + 1)).map (fun i => f (p + i)) =
      f p :: (List.range n).map (fun i => f (p + 1 + i)) := by
  rw [List.range_succ_eq_map, List.map_cons, List.map_map, Nat.add_zero]
  congr 1
  apply List.map_congr_left
  intro i _
  simp only [Function.comp]
  congr 1
  omega

/-- Running the pagination loop from page `p` when page `p + n` is the first
empty page from `p` on: it yields the concatenation of the non-empty pages
`p, ..., p + n - 1` and issues exactly the page requests `p, ..., p + n`
(terminating on the empty page), for any sufficient fuel. -/
theorem getContactsLoop_run (endpoint : String) (base : Dict) (server : Nat → List PyVal) :
    ∀ (n p fuel : Nat), n + 1 ≤ fuel →
      (server (p + n)).length = 0 →
      (∀ i, i < n → 0 < (server (p + i)).length) →
      getContactsLoop endpoint base server fuel p =
        some (((List.range n).map (fun i => server (p + i))).flatten,
              (List.range (n + 1)).map (fun i => ⟨endpoint, pageData base (p + i)⟩)) := by
  intro n
  induction n with
  | zero =>
    intro p fuel hfuel hk _
    cases fuel with
    | zero => omega
    | succ f =>
      simp only [Nat.add_zero] at hk
      simp [getContactsLoop, hk, List.range_succ]
  | succ n ih =>
    intro p fuel hfuel hk hlt
    cases fuel with
    | zero => omega
    | succ f =>
      have h0 : 0 < (server p).length := by
        have h := hlt 0 (Nat.succ_pos n)
        simpa using h
      have hk' : (server (p + 1 + n)).length = 0 := by
        have e : p + 1 + n = p + (n + 1) := by omega
        rw [e]
        exact hk
      have hlt' : ∀ i, i < n → 0 < (server (p + 1 + i)).length := by
        intro i hi
        have h := hlt (i + 1) (by omega)
        have e : p + (i + 1) = p + 1 + i := by omega
        rwa [e] at h
      have hrec := ih (p + 1) f (by omega) hk' hlt'
      simp only [getContactsLoop]
      rw [if_pos h0, hrec, map_range_shift server n p,
        map_range_shift (fun q => (⟨endpoint, pageData base q⟩ : Request)) (n + 1) p,
        List.flatten_cons]

/-- C2: For every sequence of page responses in which page `k` is the first
empty one, `get_contacts` yields exactly the concatenation of the pages
before `k`, in order, and terminates after fetching that first empty page —
having issued exactly the page requests `0, ..., k`.  In particular `k = 0`
(the very first page empty) yields zero records without error. -/
theorem c2_get_contacts_pagination (g : GetContactsArgs) (server : Nat → List PyVal)
    (k fuel : Nat) (hfuel : k + 1 ≤ fuel)
    (hempty : (server k).length = 0)
    (hfull : ∀ i, i < k → 0 < (server i).length) :
    get_contacts g server fuel =
      some (((List.range k).map server).flatten,
            (List.range (k + 1)).map
              (fun n => ⟨"getContacts", pageData (getContactsBaseData g) n⟩)) := by
  unfold get_contacts
  rw [getContactsLoop_run "getContacts" (getContactsBaseData g) server k 0 fuel hfuel
    (by simpa using hempty) (fun i hi => by simpa using hfull i hi)]
  simp [Nat.zero_add]

/-- The mocked server of the C2 witness: two non-empty pages (two records,
then one record), then the empty page. -/
def c2WitnessServer : Nat → List PyVal := fun n =>
  if n = 0 then [.vObj, .vObj] else if n = 1 then [.vObj] else []

/-- Witness for C2: with two non-empty pages followed by an empty page,
`get_contacts` yields the three records in order and issues exactly the three
page requests 0, 1, 2. -/
theorem c2_get_contacts_pagination_witness :
    get_contacts getContactsDefaults c2WitnessServer 3 =
      some (((List.range 2).map c2WitnessServer).flatten,
            (List.range 3).map
              (fun n => ⟨"getContacts", pageData (getContactsBaseData getContactsDefaults) n⟩)) :=
  c2_get_contacts_pagination getContactsDefaults c2WitnessServer 2 3 (by decide)
    (by decide) (by decide)

/-- C10: `_request` inserts the `api_group` and `api_secret` credential
fields into the very mapping object the caller supplied, mutating it in
place; and because the `data` parameter defaults to a single mutable dict
allocated once at function definition time, all calls made without an
explicit payload share and mutate that one dict: (a) a call with an explicit
dictionary reference writes the credentials into exactly that object and
touches nothing else; (b) a call without a payload resolves to the one
default dictionary, which keeps being the default afterwards; (c) a second
credential-less call therefore posts the dictionary as already mutated by the
first one. -/
theorem c10_request_mutates_shared_default (group secret group2 secret2 : String)
    (s : ClientState) :
    (∀ r : Ref,
      (requestEffect group secret s (some r)).2.1 = r ∧
      (requestEffect group secret s (some r)).1.heap =
        Function.update s.heap r
          (dictSet (dictSet (s.heap r) "api_group" (.vStr group))
            "api_secret" (.vStr secret))) ∧
    ((requestEffect group secret s none).2.1 = s.defaultData ∧
      (requestEffect group secret s none).1.defaultData = s.defaultData ∧
      (requestEffect group secret s none).1.heap s.defaultData =
        dictSet (dictSet (s.heap s.defaultData) "api_group" (.vStr group))
          "api_secret" (.vStr secret)) ∧
    ((requestEffect group2 secret2 ((requestEffect group secret s none).1) none).2.2 =
      dictSet (dictSet ((requestEffect group secret s none).2.2) "api_group" (.vStr group2))
        "api_secret" (.vStr secret2)) := by
  refine ⟨fun r => ⟨rfl, rfl⟩, ⟨rfl, rfl, ?_⟩, ?_⟩
  · simp [requestEffect]
  · simp [requestEffect]

/-- C5: `get_segments` with an `object_type` outside the fixed closed set of
ten recognized object categories fails with InvalidInputError and performs
zero network calls (no request value is produced); with a member of that set
it issues exactly the one request carrying that `object_type`. -/
theorem c5_get_segments_object_type (object_type : String) :
    segmentObjectTypes.length = 10 ∧
    (object_type ∉ segmentObjectTypes →
      get_segments object_type =
        .error (.invalidInputError "Invalid contents of object_type.")) ∧
    (object_type ∈ segmentObjectTypes →
      get_segments object_type =
        .ok ⟨"getSegments", [("object_type", .vStr object_type)]⟩) := by
  refine ⟨rfl, ?_, ?_⟩ <;> intro h <;> simp [get_segments, h]

/-- Witness for C5: the spec's own example `"not_a_real_type"` fails with
InvalidInputError, and the member `"crm_contacts"` produces the single
request. -/
theorem c5_get_segments_object_type_witness :
    get_segments "not_a_real_type" =
      .error (.invalidInputError "Invalid contents of object_type.") ∧
    get_segments "crm_contacts" =
      .ok ⟨"getSegments", [("object_type", .vStr "crm_contacts")]⟩ :=
  ⟨(c5_get_segments_object_type "not_a_real_type").2.1 (by decide),
   (c5_get_segments_object_type "crm_contacts").2.2 (by decide)⟩

/-- C9 counterexample: `get_contacts_by_company` does NOT run the pagination
algorithm.  With a response that is a full page of 100 records it still
issues exactly one request, and that request carries neither a `pageno` page
counter nor an `amount` page size — whereas the spec's §4.3 algorithm, run
against a server whose page 0 holds those 100 records and whose page 1 is
empty, issues two page requests. -/
theorem c9_get_contacts_by_company_not_paginated :
    get_contacts_by_company (.vInt 7) (List.replicate 100 PyVal.vObj) =
      (List.replicate 100 PyVal.vObj,
       [⟨"getContactsByCompany", [("company_id", .vInt 7)]⟩]) ∧
    dictContains [("company_id", PyVal.vInt 7)] "pageno" = false ∧
    dictContains [("company_id", PyVal.vInt 7)] "amount" = false ∧
    (paginationAlgorithm "getContactsByCompany" [("company_id", .vInt 7)]
        (fun n => if n = 0 then List.replicate 100 PyVal.vObj else []) 2).map
          (fun pr => pr.2.length) = some 2 := by
  refine ⟨rfl, by decide, by decide, ?_⟩
  simp [paginationAlgorithm, getContactsLoop]

/-- C9 amended: `get_contacts_by_company` is not paginated: it issues exactly
one `getContactsByCompany` request, carrying only the `company_id` (no page
counter, no page size), and yields the records of that single response in
order. -/
theorem c9_get_contacts_by_company_single_request (company_id : PyVal)
    (response : List PyVal) :
    get_contacts_by_company company_id response =
      (response, [⟨"getContactsByCompany", [("company_id", company_id)]⟩]) ∧
    (get_contacts_by_company company_id response).2.length = 1 ∧
    dictContains [("company_id", company_id)] "pageno" = false ∧
    dictContains [("company_id", company_id)] "amount" = false :=
  ⟨rfl, rfl, rfl, rfl⟩

/-- C8: the `del_tags` type check of `update_contact` is a copy-paste slip:
with a non-list `del_tags` the call does fail fast with InvalidInputError and
no request, but the message is `"Invalid contents of argument tags."`
(api.py line 229), naming `tags` instead of the offending `del_tags`. -/
theorem c8_del_tags_message_bug :
    update_contact [] []
      ⟨.vInt 1, true, .vNone, .vNone, .vNone, .vNone, .vNone, .vNone, .vNone, .vNone,
       .vNone, .vNone, .vNone, .vNone, .vNone, .vNone, .vNone, .vList [], .vStr "oops",
       .vDict [], .vNone⟩ =
      .error (.invalidInputError "Invalid contents of argument tags.") ∧
    "Invalid contents of argument tags." ≠ "Invalid contents of argument del_tags." :=
  ⟨rfl, by decide⟩

/-- C7 counterexample: `update_contact` forwards `track_changes` as the raw
boolean `True`, not as the integer 0/1: the payload of a default call holds
`.vBool true` under `track_changes`, and a boolean is not an integer value. -/
theorem c7_track_changes_not_coerced :
    update_contact [] [] (updateContactDefaults (.vInt 1)) =
      .ok ⟨"updateContact",
        [("self", .vObj), ("contact_id", .vInt 1), ("track_changes", .vBool true),
         ("add_tag_by_string", .vStr ""), ("remove_tag_by_string", .vStr "")]⟩ ∧
    dictGet
      [("self", PyVal.vObj), ("contact_id", PyVal.vInt 1),
       ("track_changes", PyVal.vBool true), ("add_tag_by_string", PyVal.vStr ""),
       ("remove_tag_by_string", PyVal.vStr "")] "track_changes" =
      some (.vBool true) ∧
    PyVal.vBool true ≠ PyVal.vInt 0 ∧ PyVal.vBool true ≠ PyVal.vInt 1 :=
  ⟨rfl, rfl, fun h => PyVal.noConfusion h, fun h => PyVal.noConfusion h⟩

/-- C7 amended: the boolean-flagged arguments `show_inactive_users`
(get_users), `newsletter`, `automerge_by_name` and `automerge_by_email`
(add_contact) are coerced by `int(...)` and appear in the payload as the
integer 0 or 1; `update_contact`'s `track_changes` flag is always forwarded,
but as the raw boolean, never coerced to 0/1. -/
theorem c7_boolean_flags (b nb an ae tc : Bool) :
    (dictGet (get_users b).data "show_inactive_users" =
      some (.vInt (bif b then 1 else 0))) ∧
    (∃ d : Dict,
      add_contact [] []
        ⟨.vStr "f", .vStr "s", .vStr "e", .vNone, .vNone, .vNone, .vNone, .vNone,
         .vNone, .vNone, .vNone, .vNone, .vNone, .vNone, .vNone, .vNone,
         .vBool nb, .vList [], an, ae, .vDict [], .vNone, .vNone⟩ =
        .ok ⟨"addContact", d⟩ ∧
      dictGet d "newsletter" = some (.vInt (bif nb then 1 else 0)) ∧
      dictGet d "automerge_by_name" = some (.vInt (bif an then 1 else 0)) ∧
      dictGet d "automerge_by_email" = some (.vInt (bif ae then 1 else 0))) ∧
    (∃ d : Dict,
      update_contact [] []
        ⟨.vInt 1, tc, .vNone, .vNone, .vNone, .vNone, .vNone, .vNone, .vNone, .vNone,
         .vNone, .vNone, .vNone, .vNone, .vNone, .vNone, .vNone, .vList [], .vList [],
         .vDict [], .vNone⟩ =
        .ok ⟨"updateContact", d⟩ ∧
      dictGet d "track_changes" = some (.vBool tc)) := by
  refine ⟨?_, ?_, ?_⟩
  · cases b <;> rfl
  · cases nb <;> cases an <;> cases ae <;> exact ⟨_, rfl, rfl, rfl, rfl⟩
  · cases tc <;> exact ⟨_, rfl, rfl⟩

/-- Every failing branch of the `add_contact` validation chain is an
InvalidInputError. -/
theorem addContactCheck_invalid (countries languages : List String) (a : AddContactArgs)
    (h : addContactCheck countries languages a ≠ none) :
    ∃ m, addContactCheck countries languages a = some (.invalidInputError m) := by
  unfold addContactCheck at h ⊢
  split_ifs at h ⊢ <;> first | exact ⟨_, rfl⟩ | exact absurd rfl h

/-- An invalid country makes the `add_contact` validation chain fail (with
whichever of its checks fires first). -/
theorem addContactCheck_ne_none_of_country (countries languages : List String)
    (a : AddContactArgs) (h : countryInvalid countries a.country = true) :
    addContactCheck countries languages a ≠ none := by
  unfold addContactCheck
  split_ifs <;> simp_all

/-- An invalid language makes the `add_contact` validation chain fail. -/
theorem addContactCheck_ne_none_of_language (countries languages : List String)
    (a : AddContactArgs) (h : languageInvalid languages a.language = true) :
    addContactCheck countries languages a ≠ none := by
  unfold addContactCheck
  split_ifs <;> simp_all

/-- A failing validation chain means `add_contact` raises InvalidInputError
and produces no request. -/
theorem add_contact_error_of_check (countries languages : List String)
    (a : AddContactArgs) (h : addContactCheck countries languages a ≠ none) :
    ∃ m, add_contact countries languages a = .error (.invalidInputError m) := by
  obtain ⟨m, hm⟩ := addContactCheck_invalid countries languages a h
  refine ⟨m, ?_⟩
  unfold add_contact
  rw [hm]

/-- Every failing branch of the `update_contact` validation chain is an
InvalidInputError. -/
theorem updateContactCheck_invalid (countries languages : List String)
    (a : UpdateContactArgs) (h : updateContactCheck countries languages a ≠ none) :
    ∃ m, updateContactCheck countries languages a = some (.invalidInputError m) := by
  unfold updateContactCheck at h ⊢
  split_ifs at h ⊢ <;> first | exact ⟨_, rfl⟩ | exact absurd rfl h

/-- An invalid country makes the `update_contact` validation chain fail. -/
theorem updateContactCheck_ne_none_of_country (countries languages : List String)
    (a : UpdateContactArgs) (h : countryInvalid countries a.country = true) :
    updateContactCheck countries languages a ≠ none := by
  unfold updateContactCheck
  split_ifs <;> simp_all

/-- An invalid language makes the `update_contact` validation chain fail. -/
theorem updateContactCheck_ne_none_of_language (countries languages : List String)
    (a : UpdateContactArgs) (h : languageInvalid languages a.language = true) :
    updateContactCheck countries languages a ≠ none := by
  unfold updateContactCheck
  split_ifs <;> simp_all

/-- A failing validation chain means `update_contact` raises
InvalidInputError and produces no request. -/
theorem update_contact_error_of_check (countries languages : List String)
    (a : UpdateContactArgs) (h : updateContactCheck countries languages a ≠ none) :
    ∃ m, update_contact countries languages a = .error (.invalidInputError m) := by
  obtain ⟨m, hm⟩ := updateContactCheck_invalid countries languages a h
  refine ⟨m, ?_⟩
  unfold update_contact
  rw [hm]

/-- C4: For every call to `add_contact` or `update_contact` with a country
argument whose upper-casing is not in the ISO 3166-1 alpha-2 table, or a
language argument whose lower-casing is not in the ISO 639-1 table, the call
fails with InvalidInputError and no network request is issued (no request
value is produced; validation runs before `_request`). -/
theorem c4_country_language_validation (countries languages : List String)
    (a : AddContactArgs) (u : UpdateContactArgs) :
    (∀ c : String, a.country = .vStr c → countries.contains (pyUpper c) = false →
      ∃ m, add_contact countries languages a = .error (.invalidInputError m)) ∧
    (∀ l : String, a.language = .vStr l → languages.contains (pyLower l) = false →
      ∃ m, add_contact countries languages a = .error (.invalidInputError m)) ∧
    (∀ c : String, u.country = .vStr c → countries.contains (pyUpper c) = false →
      ∃ m, update_contact countries languages u = .error (.invalidInputError m)) ∧
    (∀ l : String, u.language = .vStr l → languages.contains (pyLower l) = false →
      ∃ m, update_contact countries languages u = .error (.invalidInputError m)) := by
  refine ⟨?_, ?_, ?_, ?_⟩
  · intro c hc hcc
    apply add_contact_error_of_check
    apply addContactCheck_ne_none_of_country
    rw [hc]
    show (!countries.contains (pyUpper c)) = true
    rw [hcc]
    rfl
  · intro l hl hll
    apply add_contact_error_of_check
    apply addContactCheck_ne_none_of_language
    rw [hl]
    show (!languages.contains (pyLower l)) = true
    rw [hll]
    rfl
  · intro c hc hcc
    apply update_contact_error_of_check
    apply updateContactCheck_ne_none_of_country
    rw [hc]
    show (!countries.contains (pyUpper c)) = true
    rw [hcc]
    rfl
  · intro l hl hll
    apply update_contact_error_of_check
    apply updateContactCheck_ne_none_of_language
    rw [hl]
    show (!languages.contains (pyLower l)) = true
    rw [hll]
    rfl

/-- Witness for C4: with table `["BE"]`, `add_contact` called with country
`"ZZ"` (the spec's example) fails with some InvalidInputError. -/
theorem c4_country_language_validation_witness :
    ∃ m, add_contact ["BE"] ["nl"]
      ⟨.vStr "f", .vStr "s", .vStr "e", .vNone, .vNone, .vNone, .vNone, .vStr "ZZ",
       .vNone, .vNone, .vNone, .vNone, .vNone, .vNone, .vNone, .vNone, .vNone,
       .vList [], false, false, .vDict [], .vNone, .vNone⟩ =
      .error (.invalidInputError m) :=
  (c4_country_language_validation ["BE"] ["nl"]
    ⟨.vStr "f", .vStr "s", .vStr "e", .vNone, .vNone, .vNone, .vNone, .vStr "ZZ",
     .vNone, .vNone, .vNone, .vNone, .vNone, .vNone, .vNone, .vNone, .vNone,
     .vList [], false, false, .vDict [], .vNone, .vNone⟩
    (updateContactDefaults (.vInt 1))).1 "ZZ" rfl (by decide)

/-- A fixed key shorter than the `custom_field_` prefix never collides with a
prefixed custom-field key (Bool form, as `dictContains` scans it). -/
theorem beq_customfield_false_of_short (k s : String) (h : s.length < 13) :
    (s == "custom_field_" ++ k) = false :=
  beq_eq_false_iff_ne.mpr (Ne.symm (customfield_ne_of_short k s h))

/-- A fixed key not starting with `'c'` never collides with a prefixed
custom-field key (Bool form). -/
theorem beq_customfield_false_of_head (k s : String) (h : s.data.head? ≠ some 'c') :
    (s == "custom_field_" ++ k) = false :=
  beq_eq_false_iff_ne.mpr (Ne.symm (customfield_ne_of_head k s h))

/-- Setting keys that all differ from `k` does not change the lookup of `k`. -/
theorem dictGet_foldl_set_of_ne (es : List (String × PyVal)) (f : String → String)
    (d : Dict) (k : String) (h : ∀ p ∈ es, f p.1 ≠ k) :
    dictGet (es.foldl (fun acc q => dictSet acc (f q.1) q.2) d) k = dictGet d k := by
  induction es generalizing d with
  | nil => rfl
  | cons q rest ih =>
    rw [List.foldl_cons, ih _ (fun p hp => h p (List.mem_cons_of_mem q hp)),
      dictGet_dictSet_ne _ _ _ _ (Ne.symm (h q (List.mem_cons_self q rest)))]

/-- Setting keys that all differ from `k` does not change the multiplicity of
`k`. -/
theorem countKey_foldl_set_of_ne (es : List (String × PyVal)) (f : String → String)
    (d : Dict) (k : String) (h : ∀ p ∈ es, f p.1 ≠ k) :
    countKey (es.foldl (fun acc q => dictSet acc (f q.1) q.2) d) k = countKey d k := by
  induction es generalizing d with
  | nil => rfl
  | cons q rest ih =>
    rw [List.foldl_cons, ih _ (fun p hp => h p (List.mem_cons_of_mem q hp)),
      countKey_dictSet_ne _ _ _ _ (Ne.symm (h q (List.mem_cons_self q rest)))]

/-- The custom-fields spreading loop
(`for k, v in custom_fields.items(): data['custom_field_' + k] = v`): when
the input keys are distinct (a Python dict) and none of the prefixed keys is
already in the payload, every input item ends up as exactly one payload entry
`custom_field_<k>` with the identical value. -/
theorem foldl_set_customfields (es : List (String × PyVal)) (d : Dict)
    (hnd : (es.map Prod.fst).Nodup)
    (hfresh : ∀ p ∈ es, dictContains d ("custom_field_" ++ p.1) = false) :
    ∀ p ∈ es,
      dictGet (es.foldl (fun acc q => dictSet acc ("custom_field_" ++ q.1) q.2) d)
        ("custom_field_" ++ p.1) = some p.2 ∧
      countKey (es.foldl (fun acc q => dictSet acc ("custom_field_" ++ q.1) q.2) d)
        ("custom_field_" ++ p.1) = 1 := by
  induction es generalizing d with
  | nil => intro p hp; cases hp
  | cons q rest ih =>
    intro p hp
    have hq_notin : q.1 ∉ rest.map Prod.fst := (List.nodup_cons.mp hnd).1
    have hq_fresh : dictContains d ("custom_field_" ++ q.1) = false :=
      hfresh q (List.mem_cons_self q rest)
    rw [List.foldl_cons]
    rcases List.mem_cons.mp hp with hpq | hp_rest
    · subst hpq
      have hne : ∀ r ∈ rest, ("custom_field_" ++ r.1) ≠ ("custom_field_" ++ p.1) := by
        intro r hr he
        exact hq_notin (customfield_inj he ▸ List.mem_map_of_mem Prod.fst hr)
      have hset : dictSet d ("custom_field_" ++ p.1) p.2 =
          d ++ [("custom_field_" ++ p.1, p.2)] := dictSet_absent _ _ _ hq_fresh
      constructor
      · rw [dictGet_foldl_set_of_ne rest _ _ _ hne, hset, dictGet_append,
          dictGet_absent _ _ hq_fresh]
        simp [dictGet]
      · rw [countKey_foldl_set_of_ne rest _ _ _ hne, hset, countKey_append,
          countKey_absent _ _ hq_fresh]
        simp [countKey]
    · have hnd' : (rest.map Prod.fst).Nodup := (List.nodup_cons.mp hnd).2
      have hfresh' : ∀ r ∈ rest,
          dictContains (dictSet d ("custom_field_" ++ q.1) q.2)
            ("custom_field_" ++ r.1) = false := by
        intro r hr
        rw [dictContains_dictSet]
        have h1 : dictContains d ("custom_field_" ++ r.1) = false :=
          hfresh r (List.mem_cons_of_mem q hr)
        have h2 : ("custom_field_" ++ r.1 == "custom_field_" ++ q.1) = false := by
          rw [beq_eq_false_iff_ne]
          intro he
          exact hq_notin (customfield_inj he ▸ List.mem_map_of_mem Prod.fst hr)
        rw [h1, h2]
        rfl
      exact ih _ hnd' hfresh' p hp_rest

/-- C6: For every mapping passed as `custom_fields` to `add_contact` or
`update_contact` (distinct keys, as any Python dict has), each key `k` of the
mapping produces exactly one payload key `custom_field_k` whose value is
identical to the mapping's value for `k`, and the payload contains no key
named `custom_fields`. -/
theorem c6_custom_fields_spreading (f s0 e : String) (cid : Int)
    (es : List (String × PyVal)) (hnd : (es.map Prod.fst).Nodup) :
    (∃ d : Dict,
      add_contact [] []
        ⟨.vStr f, .vStr s0, .vStr e, .vNone, .vNone, .vNone, .vNone, .vNone, .vNone,
         .vNone, .vNone, .vNone, .vNone, .vNone, .vNone, .vNone, .vNone, .vList [],
         false, false, .vDict es, .vNone, .vNone⟩ = .ok ⟨"addContact", d⟩ ∧
      (∀ p ∈ es, dictGet d ("custom_field_" ++ p.1) = some p.2 ∧
        countKey d ("custom_field_" ++ p.1) = 1) ∧
      dictContains d "custom_fields" = false) ∧
    (∃ d : Dict,
      update_contact [] []
        ⟨.vInt cid, true, .vNone, .vNone, .vNone, .vNone, .vNone, .vNone, .vNone,
         .vNone, .vNone, .vNone, .vNone, .vNone, .vNone, .vNone, .vNone, .vList [],
         .vList [], .vDict es, .vNone⟩ = .ok ⟨"updateContact", d⟩ ∧
      (∀ p ∈ es, dictGet d ("custom_field_" ++ p.1) = some p.2 ∧
        countKey d ("custom_field_" ++ p.1) = 1) ∧
      dictContains d "custom_fields" = false) := by
  constructor
  · have hmain : add_contact [] []
        ⟨.vStr f, .vStr s0, .vStr e, .vNone, .vNone, .vNone, .vNone, .vNone, .vNone,
         .vNone, .vNone, .vNone, .vNone, .vNone, .vNone, .vNone, .vNone, .vList [],
         false, false, .vDict es, .vNone, .vNone⟩ =
        .ok ⟨"addContact",
          dictSet (dictSet
            (es.foldl (fun acc q => dictSet acc ("custom_field_" ++ q.1) q.2)
              [("self", .vObj), ("forename", .vStr f), ("surname", .vStr s0),
               ("email", .vStr e), ("automerge_by_name", .vBool false),
               ("automerge_by_email", .vBool false), ("add_tag_by_string", .vStr "")])
            "automerge_by_name" (.vInt 0)) "automerge_by_email" (.vInt 0)⟩ := rfl
    refine ⟨_, hmain, ?_, ?_⟩
    · intro p hp
      have hfresh : ∀ r ∈ es,
          dictContains
            [("self", PyVal.vObj), ("forename", PyVal.vStr f),
             ("surname", PyVal.vStr s0), ("email", PyVal.vStr e),
             ("automerge_by_name", PyVal.vBool false),
             ("automerge_by_email", PyVal.vBool false),
             ("add_tag_by_string", PyVal.vStr "")] ("custom_field_" ++ r.1) = false := by
        intro r _
        simp only [dictContains, List.any_cons, List.any_nil,
          beq_customfield_false_of_short r.1 "self" (by decide),
          beq_customfield_false_of_short r.1 "forename" (by decide),
          beq_customfield_false_of_short r.1 "surname" (by decide),
          beq_customfield_false_of_short r.1 "email" (by decide),
          beq_customfield_false_of_head r.1 "automerge_by_name" (by decide),
          beq_customfield_false_of_head r.1 "automerge_by_email" (by decide),
          beq_customfield_false_of_head r.1 "add_tag_by_string" (by decide),
          Bool.or_self, Bool.or_false]
      have hcf := foldl_set_customfields es _ hnd hfresh p hp
      rw [dictGet_dictSet_ne _ _ _ _ (customfield_ne_of_head p.1 "automerge_by_email"
          (by decide)),
        dictGet_dictSet_ne _ _ _ _ (customfield_ne_of_head p.1 "automerge_by_name"
          (by decide)),
        countKey_dictSet_ne _ _ _ _ (customfield_ne_of_head p.1 "automerge_by_email"
          (by decide)),
        countKey_dictSet_ne _ _ _ _ (customfield_ne_of_head p.1 "automerge_by_name"
          (by decide))]
      exact hcf
    · rw [dictContains_dictSet, dictContains_dictSet, dictContains_foldl_set]
      have hany : (es.any fun p => "custom_fields" == "custom_field_" ++ p.1) = false := by
        rw [List.any_eq_false]
        intro p _
        simp only [beq_iff_eq]
        exact Ne.symm (customfield_ne_customfields p.1)
      rw [hany]
      rfl
  · have hmain : update_contact [] []
        ⟨.vInt cid, true, .vNone, .vNone, .vNone, .vNone, .vNone, .vNone, .vNone,
         .vNone, .vNone, .vNone, .vNone, .vNone, .vNone, .vNone, .vNone, .vList [],
         .vList [], .vDict es, .vNone⟩ =
        .ok ⟨"updateContact",
          es.foldl (fun acc q => dictSet acc ("custom_field_" ++ q.1) q.2)
            [("self", .vObj), ("contact_id", .vInt cid),
             ("track_changes", .vBool true), ("add_tag_by_string", .vStr ""),
             ("remove_tag_by_string", .vStr "")]⟩ := rfl
    refine ⟨_, hmain, ?_, ?_⟩
    · intro p hp
      have hfresh : ∀ r ∈ es,
          dictContains
            [("self", PyVal.vObj), ("contact_id", PyVal.vInt cid),
             ("track_changes", PyVal.vBool true), ("add_tag_by_string", PyVal.vStr ""),
             ("remove_tag_by_string", PyVal.vStr "")]
            ("custom_field_" ++ r.1) = false := by
        intro r _
        simp only [dictContains, List.any_cons, List.any_nil,
          beq_customfield_false_of_short r.1 "self" (by decide),
          beq_customfield_false_of_short r.1 "contact_id" (by decide),
          beq_customfield_false_of_head r.1 "track_changes" (by decide),
          beq_customfield_false_of_head r.1 "add_tag_by_string" (by decide),
          beq_customfield_false_of_head r.1 "remove_tag_by_string" (by decide),
          Bool.or_self, Bool.or_false]
      exact foldl_set_customfields es _ hnd hfresh p hp
    · rw [dictContains_foldl_set]
      have hany : (es.any fun p => "custom_fields" == "custom_field_" ++ p.1) = false := by
        rw [List.any_eq_false]
        intro p _
        simp only [beq_iff_eq]
        exact Ne.symm (customfield_ne_customfields p.1)
      rw [hany]
      rfl

/-- Witness for C6: the mapping `{"x": 5, "y": "v"}` yields exactly the
payload keys `custom_field_x` and `custom_field_y` with the identical values
and no `custom_fields` key, for both `add_contact` and `update_contact`. -/
theorem c6_custom_fields_spreading_witness :
    (∃ d : Dict,
      add_contact [] []
        ⟨.vStr "f", .vStr "s", .vStr "e", .vNone, .vNone, .vNone, .vNone, .vNone,
         .vNone, .vNone, .vNone, .vNone, .vNone, .vNone, .vNone, .vNone, .vNone,
         .vList [], false, false, .vDict [("x", .vInt 5), ("y", .vStr "v")],
         .vNone, .vNone⟩ = .ok ⟨"addContact", d⟩ ∧
      (∀ p ∈ [("x", PyVal.vInt 5), ("y", PyVal.vStr "v")],
        dictGet d ("custom_field_" ++ p.1) = some p.2 ∧
        countKey d ("custom_field_" ++ p.1) = 1) ∧
      dictContains d "custom_fields" = false) ∧
    (∃ d : Dict,
      update_contact [] []
        ⟨.vInt 1, true, .vNone, .vNone, .vNone, .vNone, .vNone, .vNone, .vNone,
         .vNone, .vNone, .vNone, .vNone, .vNone, .vNone, .vNone, .vNone, .vList [],
         .vList [], .vDict [("x", .vInt 5), ("y", .vStr "v")], .vNone⟩ =
        .ok ⟨"updateContact", d⟩ ∧
      (∀ p ∈ [("x", PyVal.vInt 5), ("y", PyVal.vStr "v")],
        dictGet d ("custom_field_" ++ p.1) = some p.2 ∧
        countKey d ("custom_field_" ++ p.1) = 1) ∧
      dictContains d "custom_fields" = false) :=
  c6_custom_fields_spreading "f" "s" "e" 1 [("x", .vInt 5), ("y", .vStr "v")]
    (by decide)

/-- No prefixed custom-field key ever equals a fixed key shorter than the
prefix (any-scan form). -/
theorem any_customfield_short (es : List (String × PyVal)) (s : String)
    (h : s.length < 13) :
    (es.any fun p => s == "custom_field_" ++ p.1) = false := by
  rw [List.any_eq_false]
  intro p _
  simp only [beq_iff_eq]
  exact Ne.symm (customfield_ne_of_short p.1 s h)

/-- No prefixed custom-field key ever equals a fixed key that does not start
with `'c'` (any-scan form). -/
theorem any_customfield_head (es : List (String × PyVal)) (s : String)
    (h : s.data.head? ≠ some 'c') :
    (es.any fun p => s == "custom_field_" ++ p.1) = false := by
  rw [List.any_eq_false]
  intro p _
  simp only [beq_iff_eq]
  exact Ne.symm (customfield_ne_of_head p.1 s h)

/-- The containment scan of the custom-fields spreading loop (first-order
form of `dictContains_foldl_set` for the `custom_field_` prefix). -/
theorem dictContains_foldl_customfield (es : List (String × PyVal)) (d : Dict)
    (k : String) :
    dictContains (es.foldl (fun acc q => dictSet acc ("custom_field_" ++ q.1) q.2) d) k
      = (dictContains d k || es.any (fun p => k == "custom_field_" ++ p.1)) :=
  dictContains_foldl_set es (fun s => "custom_field_" ++ s) d k

/-- `d.update(other)` contains a key iff either dict does. -/
theorem dictContains_dictUpdate (d other : Dict) (k : String) :
    dictContains (dictUpdate d other) k = (dictContains d k || dictContains other k) := by
  unfold dictUpdate
  rw [dictContains_foldl_set other (fun s => s) d k]
  unfold dictContains
  have h : (fun p : String × PyVal => k == p.1) = fun p : String × PyVal => p.1 == k := by
    funext p
    exact Bool.beq_comm
  rw [h]

/-- Containment distributes over a conditional dictionary. -/
theorem dictContains_ite (c : Prop) [Decidable c] (d1 d2 : Dict) (k : String) :
    dictContains (if c then d1 else d2) k =
      if c then dictContains d1 k else dictContains d2 k :=
  apply_ite (fun d => dictContains d k) c d1 d2

/-- No prefixed custom-field key ever equals `"custom_fields"` itself
(any-scan form). -/
theorem any_customfield_customfields (es : List (String × PyVal)) :
    (es.any fun p => "custom_fields" == "custom_field_" ++ p.1) = false := by
  rw [List.any_eq_false]
  intro p _
  simp only [beq_iff_eq]
  exact Ne.symm (customfield_ne_customfields p.1)

/-- The empty dict contains nothing. -/
theorem dictContains_nil (k : String) : dictContains [] k = false := rfl

/-- C3 amended: for `add_contact`, `update_contact` and `get_contacts`,
every optional argument with default `None` that is left unset is absent from
the payload handed to `_request` (and the `tags`/`del_tags`/`custom_fields`
keys never survive as such, being popped into their wire fields); but the
flag arguments with non-None defaults are always present —
`automerge_by_name`/`automerge_by_email` in every `add_contact` payload and
`track_changes` in every `update_contact` payload — and
`link_contact_company` always includes the `function` key, also when that
optional argument was left unset. -/
theorem c3_unset_optional_arguments (countries languages : List String)
    (a : AddContactArgs) (u : UpdateContactArgs) (g : GetContactsArgs)
    (ca co : PyVal) (pageno : Nat) (ra ru : Request)
    (ha : add_contact countries languages a = .ok ra)
    (hu : update_contact countries languages u = .ok ru) :
    (a.salutation = .vNone → dictContains ra.data "salutation" = false) ∧
    (a.telephone = .vNone → dictContains ra.data "telephone" = false) ∧
    (a.gsm = .vNone → dictContains ra.data "gsm" = false) ∧
    (a.website = .vNone → dictContains ra.data "website" = false) ∧
    (a.country = .vNone → dictContains ra.data "country" = false) ∧
    (a.zipcode = .vNone → dictContains ra.data "zipcode" = false) ∧
    (a.city = .vNone → dictContains ra.data "city" = false) ∧
    (a.street = .vNone → dictContains ra.data "street" = false) ∧
    (a.number = .vNone → dictContains ra.data "number" = false) ∧
    (a.language = .vNone → dictContains ra.data "language" = false) ∧
    (a.gender = .vNone → dictContains ra.data "gender" = false) ∧
    (a.description = .vNone → dictContains ra.data "description" = false) ∧
    (a.tracking = .vNone → dictContains ra.data "tracking" = false) ∧
    (a.newsletter = .vNone → dictContains ra.data "newsletter" = false) ∧
    (a.tracking_long = .vNone → dictContains ra.data "tracking_long" = false) ∧
    (a.date_of_birth = .vNone → dictContains ra.data "date_of_birth" = false) ∧
    dictContains ra.data "tags" = false ∧
    dictContains ra.data "custom_fields" = false ∧
    dictContains ra.data "automerge_by_name" = true ∧
    dictContains ra.data "automerge_by_email" = true ∧
    (u.forename = .vNone → dictContains ru.data "forename" = false) ∧
    (u.surname = .vNone → dictContains ru.data "surname" = false) ∧
    (u.email = .vNone → dictContains ru.data "email" = false) ∧
    (u.telephone = .vNone → dictContains ru.data "telephone" = false) ∧
    (u.gsm = .vNone → dictContains ru.data "gsm" = false) ∧
    (u.website = .vNone → dictContains ru.data "website" = false) ∧
    (u.country = .vNone → dictContains ru.data "country" = false) ∧
    (u.zipcode = .vNone → dictContains ru.data "zipcode" = false) ∧
    (u.city = .vNone → dictContains ru.data "city" = false) ∧
    (u.street = .vNone → dictContains ru.data "street" = false) ∧
    (u.number = .vNone → dictContains ru.data "number" = false) ∧
    (u.language = .vNone → dictContains ru.data "language" = false) ∧
    (u.gender = .vNone → dictContains ru.data "gender" = false) ∧
    (u.description = .vNone → dictContains ru.data "description" = false) ∧
    (u.date_of_birth = .vNone → dictContains ru.data "date_of_birth" = false) ∧
    (u.linked_company_ids = .vNone → dictContains ru.data "linked_company_ids" = false) ∧
    dictContains ru.data "tags" = false ∧
    dictContains ru.data "del_tags" = false ∧
    dictContains ru.data "custom_fields" = false ∧
    dictContains ru.data "track_changes" = true ∧
    dictContains (link_contact_company ca co .vNone).data "function" = true ∧
    (g.query.isNone' = true →
      dictContains (pageData (getContactsBaseData g) pageno) "searchby" = false) ∧
    (g.modified_since.isNone' = true →
      dictContains (pageData (getContactsBaseData g) pageno) "modifiedsince" = false) ∧
    (g.filter_by_tag.isNone' = true →
      dictContains (pageData (getContactsBaseData g) pageno) "filter_by_tag" = false) ∧
    (g.segment_id.isNone' = true →
      dictContains (pageData (getContactsBaseData g) pageno) "segment_id" = false) ∧
    (g.selected_customfields = [] →
      dictContains (pageData (getContactsBaseData g) pageno) "selected_customfields" = false) := by
  have hra : ra = ⟨"addContact", addContactConvert a (removeNones (addContactLocals a))⟩ := by
    unfold add_contact at ha
    rcases hc : addContactCheck countries languages a with _ | err <;> rw [hc] at ha
    · injection ha with h
      exact h.symm
    · cases ha
  have hru : ru = ⟨"updateContact",
      updateContactConvert u (removeNones (updateContactLocals u))⟩ := by
    unfold update_contact at hu
    rcases hc : updateContactCheck countries languages u with _ | err <;> rw [hc] at hu
    · injection hu with h
      exact h.symm
    · cases hu
  refine ⟨?_, ?_, ?_, ?_, ?_, ?_, ?_, ?_, ?_, ?_, ?_, ?_, ?_, ?_, ?_, ?_, ?_, ?_, ?_, ?_, ?_, ?_, ?_, ?_, ?_, ?_, ?_, ?_, ?_, ?_, ?_, ?_, ?_, ?_, ?_, ?_, ?_, ?_, ?_, ?_, ?_, ?_, ?_, ?_, ?_, ?_⟩
  · intro hx
    rw [hra]
    simp only [addContactConvert, addContactLocals, dictContains_dictSet,
      dictContains_ite, dictContains_foldl_customfield, dictContains_dictPop,
      dictContains_removeNones, List.any_cons, List.any_nil,
      any_customfield_short _ "salutation" (by decide), hx]
    simp [PyVal.isNone']
  · intro hx
    rw [hra]
    simp only [addContactConvert, addContactLocals, dictContains_dictSet,
      dictContains_ite, dictContains_foldl_customfield, dictContains_dictPop,
      dictContains_removeNones, List.any_cons, List.any_nil,
      any_customfield_short _ "telephone" (by decide), hx]
    simp [PyVal.isNone']
  · intro hx
    rw [hra]
    simp only [addContactConvert, addContactLocals, dictContains_dictSet,
      dictContains_ite, dictContains_foldl_customfield, dictContains_dictPop,
      dictContains_removeNones, List.any_cons, List.any_nil,
      any_customfield_short _ "gsm" (by decide), hx]
    simp [PyVal.isNone']
  · intro hx
    rw [hra]
    simp only [addContactConvert, addContactLocals, dictContains_dictSet,
      dictContains_ite, dictContains_foldl_customfield, dictContains_dictPop,
      dictContains_removeNones, List.any_cons, List.any_nil,
      any_customfield_short _ "website" (by decide), hx]
    simp [PyVal.isNone']
  · intro hx
    rw [hra]
    simp only [addContactConvert, addContactLocals, dictContains_dictSet,
      dictContains_ite, dictContains_foldl_customfield, dictContains_dictPop,
      dictContains_removeNones, List.any_cons, List.any_nil,
      any_customfield_short _ "country" (by decide), hx]
    simp [PyVal.isNone']
  · intro hx
    rw [hra]
    simp only [addContactConvert, addContactLocals, dictContains_dictSet,
      dictContains_ite, dictContains_foldl_customfield, dictContains_dictPop,
      dictContains_removeNones, List.any_cons, List.any_nil,
      any_customfield_short _ "zipcode" (by decide), hx]
    simp [PyVal.isNone']
  · intro hx
    rw [hra]
    simp only [addContactConvert, addContactLocals, dictContains_dictSet,
      dictContains_ite, dictContains_foldl_customfield, dictContains_dictPop,
      dictContains_removeNones, List.any_cons, List.any_nil,
      any_customfield_short _ "city" (by decide), hx]
    simp [PyVal.isNone']
  · intro hx
    rw [hra]
    simp only [addContactConvert, addContactLocals, dictContains_dictSet,
      dictContains_ite, dictContains_foldl_customfield, dictContains_dictPop,
      dictContains_removeNones, List.any_cons, List.any_nil,
      any_customfield_short _ "street" (by decide), hx]
    simp [PyVal.isNone']
  · intro hx
    rw [hra]
    simp only [addContactConvert, addContactLocals, dictContains_dictSet,
      dictContains_ite, dictContains_foldl_customfield, dictContains_dictPop,
      dictContains_removeNones, List.any_cons, List.any_nil,
      any_customfield_short _ "number" (by decide), hx]
    simp [PyVal.isNone']
  · intro hx
    rw [hra]
    simp only [addContactConvert, addContactLocals, dictContains_dictSet,
      dictContains_ite, dictContains_foldl_customfield, dictContains_dictPop,
      dictContains_removeNones, List.any_cons, List.any_nil,
      any_customfield_short _ "language" (by decide), hx]
    simp [PyVal.isNone']
  · intro hx
    rw [hra]
    simp only [addContactConvert, addContactLocals, dictContains_dictSet,
      dictContains_ite, dictContains_foldl_customfield, dictContains_dictPop,
      dictContains_removeNones, List.any_cons, List.any_nil,
      any_customfield_short _ "gender" (by decide), hx]
    simp [PyVal.isNone']
  · intro hx
    rw [hra]
    simp only [addContactConvert, addContactLocals, dictContains_dictSet,
      dictContains_ite, dictContains_foldl_customfield, dictContains_dictPop,
      dictContains_removeNones, List.any_cons, List.any_nil,
      any_customfield_short _ "description" (by decide), hx]
    simp [PyVal.isNone']
  · intro hx
    rw [hra]
    simp only [addContactConvert, addContactLocals, dictContains_dictSet,
      dictContains_ite, dictContains_foldl_customfield, dictContains_dictPop,
      dictContains_removeNones, List.any_cons, List.any_nil,
      any_customfield_short _ "tracking" (by decide), hx]
    simp [PyVal.isNone']
  · intro hx
    rw [hra]
    simp only [addContactConvert, addContactLocals, dictContains_dictSet,
      dictContains_ite, dictContains_foldl_customfield, dictContains_dictPop,
      dictContains_removeNones, List.any_cons, List.any_nil,
      any_customfield_short _ "newsletter" (by decide), hx]
    simp [PyVal.isNone']
  · intro hx
    rw [hra]
    simp only [addContactConvert, addContactLocals, dictContains_dictSet,
      dictContains_ite, dictContains_foldl_customfield, dictContains_dictPop,
      dictContains_removeNones, List.any_cons, List.any_nil,
      any_customfield_head _ "tracking_long" (by decide), hx]
    simp [PyVal.isNone']
  · intro hx
    rw [hra]
    simp only [addContactConvert, addContactLocals, dictContains_dictSet,
      dictContains_ite, dictContains_foldl_customfield, dictContains_dictPop,
      dictContains_removeNones, List.any_cons, List.any_nil,
      any_customfield_head _ "date_of_birth" (by decide), hx]
    simp [PyVal.isNone']
  · rw [hra]
    simp only [addContactConvert, addContactLocals, dictContains_dictSet,
      dictContains_ite, dictContains_foldl_customfield, dictContains_dictPop,
      dictContains_removeNones, List.any_cons, List.any_nil,
      any_customfield_short _ "tags" (by decide)]
    simp [PyVal.isNone']
  · rw [hra]
    simp only [addContactConvert, addContactLocals, dictContains_dictSet,
      dictContains_ite, dictContains_foldl_customfield, dictContains_dictPop,
      dictContains_removeNones, List.any_cons, List.any_nil,
      any_customfield_customfields]
    simp [PyVal.isNone']
  · rw [hra]
    simp only [addContactConvert, addContactLocals, dictContains_dictSet,
      dictContains_ite, dictContains_foldl_customfield, dictContains_dictPop,
      dictContains_removeNones, List.any_cons, List.any_nil,
      any_customfield_head _ "automerge_by_name" (by decide)]
    simp [PyVal.isNone']
  · rw [hra]
    simp only [addContactConvert, addContactLocals, dictContains_dictSet,
      dictContains_ite, dictContains_foldl_customfield, dictContains_dictPop,
      dictContains_removeNones, List.any_cons, List.any_nil,
      any_customfield_head _ "automerge_by_email" (by decide)]
    simp [PyVal.isNone']
  · intro hx
    rw [hru]
    simp only [updateContactConvert, updateContactLocals, dictContains_dictSet,
      dictContains_ite, dictContains_foldl_customfield, dictContains_dictPop,
      dictContains_removeNones, List.any_cons, List.any_nil,
      any_customfield_short _ "forename" (by decide), hx]
    simp [PyVal.isNone']
  · intro hx
    rw [hru]
    simp only [updateContactConvert, updateContactLocals, dictContains_dictSet,
      dictContains_ite, dictContains_foldl_customfield, dictContains_dictPop,
      dictContains_removeNones, List.any_cons, List.any_nil,
      any_customfield_short _ "surname" (by decide), hx]
    simp [PyVal.isNone']
  · intro hx
    rw [hru]
    simp only [updateContactConvert, updateContactLocals, dictContains_dictSet,
      dictContains_ite, dictContains_foldl_customfield, dictContains_dictPop,
      dictContains_removeNones, List.any_cons, List.any_nil,
      any_customfield_short _ "email" (by decide), hx]
    simp [PyVal.isNone']
  · intro hx
    rw [hru]
    simp only [updateContactConvert, updateContactLocals, dictContains_dictSet,
      dictContains_ite, dictContains_foldl_customfield, dictContains_dictPop,
      dictContains_removeNones, List.any_cons, List.any_nil,
      any_customfield_short _ "telephone" (by decide), hx]
    simp [PyVal.isNone']
  · intro hx
    rw [hru]
    simp only [updateContactConvert, updateContactLocals, dictContains_dictSet,
      dictContains_ite, dictContains_foldl_customfield, dictContains_dictPop,
      dictContains_removeNones, List.any_cons, List.any_nil,
      any_customfield_short _ "gsm" (by decide), hx]
    simp [PyVal.isNone']
  · intro hx
    rw [hru]
    simp only [updateContactConvert, updateContactLocals, dictContains_dictSet,
      dictContains_ite, dictContains_foldl_customfield, dictContains_dictPop,
      dictContains_removeNones, List.any_cons, List.any_nil,
      any_customfield_short _ "website" (by decide), hx]
    simp [PyVal.isNone']
  · intro hx
    rw [hru]
    simp only [updateContactConvert, updateContactLocals, dictContains_dictSet,
      dictContains_ite, dictContains_foldl_customfield, dictContains_dictPop,
      dictContains_removeNones, List.any_cons, List.any_nil,
      any_customfield_short _ "country" (by decide), hx]
    simp [PyVal.isNone']
  · intro hx
    rw [hru]
    simp only [updateContactConvert, updateContactLocals, dictContains_dictSet,
      dictContains_ite, dictContains_foldl_customfield, dictContains_dictPop,
      dictContains_removeNones, List.any_cons, List.any_nil,
      any_customfield_short _ "zipcode" (by decide), hx]
    simp [PyVal.isNone']
  · intro hx
    rw [hru]
    simp only [updateContactConvert, updateContactLocals, dictContains_dictSet,
      dictContains_ite, dictContains_foldl_customfield, dictContains_dictPop,
      dictContains_removeNones, List.any_cons, List.any_nil,
      any_customfield_short _ "city" (by decide), hx]
    simp [PyVal.isNone']
  · intro hx
    rw [hru]
    simp only [updateContactConvert, updateContactLocals, dictContains_dictSet,
      dictContains_ite, dictContains_foldl_customfield, dictContains_dictPop,
      dictContains_removeNones, List.any_cons, List.any_nil,
      any_customfield_short _ "street" (by decide), hx]
    simp [PyVal.isNone']
  · intro hx
    rw [hru]
    simp only [updateContactConvert, updateContactLocals, dictContains_dictSet,
      dictContains_ite, dictContains_foldl_customfield, dictContains_dictPop,
      dictContains_removeNones, List.any_cons, List.any_nil,
      any_customfield_short _ "number" (by decide), hx]
    simp [PyVal.isNone']
  · intro hx
    rw [hru]
    simp only [updateContactConvert, updateContactLocals, dictContains_dictSet,
      dictContains_ite, dictContains_foldl_customfield, dictContains_dictPop,
      dictContains_removeNones, List.any_cons, List.any_nil,
      any_customfield_short _ "language" (by decide), hx]
    simp [PyVal.isNone']
  · intro hx
    rw [hru]
    simp only [updateContactConvert, updateContactLocals, dictContains_dictSet,
      dictContains_ite, dictContains_foldl_customfield, dictContains_dictPop,
      dictContains_removeNones, List.any_cons, List.any_nil,
      any_customfield_short _ "gender" (by decide), hx]
    simp [PyVal.isNone']
  · intro hx
    rw [hru]
    simp only [updateContactConvert, updateContactLocals, dictContains_dictSet,
      dictContains_ite, dictContains_foldl_customfield, dictContains_dictPop,
      dictContains_removeNones, List.any_cons, List.any_nil,
      any_customfield_short _ "description" (by decide), hx]
    simp [PyVal.isNone']
  · intro hx
    rw [hru]
    simp only [updateContactConvert, updateContactLocals, dictContains_dictSet,
      dictContains_ite, dictContains_foldl_customfield, dictContains_dictPop,
      dictContains_removeNones, List.any_cons, List.any_nil,
      any_customfield_head _ "date_of_birth" (by decide), hx]
    simp [PyVal.isNone']
  · intro hx
    rw [hru]
    simp only [updateContactConvert, updateContactLocals, dictContains_dictSet,
      dictContains_ite, dictContains_foldl_customfield, dictContains_dictPop,
      dictContains_removeNones, List.any_cons, List.any_nil,
      any_customfield_head _ "linked_company_ids" (by decide), hx]
    simp [PyVal.isNone']
  · rw [hru]
    simp only [updateContactConvert, updateContactLocals, dictContains_dictSet,
      dictContains_ite, dictContains_foldl_customfield, dictContains_dictPop,
      dictContains_removeNones, List.any_cons, List.any_nil,
      any_customfield_short _ "tags" (by decide)]
    simp [PyVal.isNone']
  · rw [hru]
    simp only [updateContactConvert, updateContactLocals, dictContains_dictSet,
      dictContains_ite, dictContains_foldl_customfield, dictContains_dictPop,
      dictContains_removeNones, List.any_cons, List.any_nil,
      any_customfield_short _ "del_tags" (by decide)]
    simp [PyVal.isNone']
  · rw [hru]
    simp only [updateContactConvert, updateContactLocals, dictContains_dictSet,
      dictContains_ite, dictContains_foldl_customfield, dictContains_dictPop,
      dictContains_removeNones, List.any_cons, List.any_nil,
      any_customfield_customfields]
    simp [PyVal.isNone']
  · rw [hru]
    simp only [updateContactConvert, updateContactLocals, dictContains_dictSet,
      dictContains_ite, dictContains_foldl_customfield, dictContains_dictPop,
      dictContains_removeNones, List.any_cons, List.any_nil,
      any_customfield_head _ "track_changes" (by decide)]
    simp [PyVal.isNone']
  · rfl
  · intro hx
    simp only [pageData, dictContains_dictUpdate, getContactsBaseData,
      dictContains_ite, dictContains_dictSet, dictContains_nil, hx]
    simp [PyVal.isNone', dictContains]
  · intro hx
    simp only [pageData, dictContains_dictUpdate, getContactsBaseData,
      dictContains_ite, dictContains_dictSet, dictContains_nil, hx]
    simp [PyVal.isNone', dictContains]
  · intro hx
    simp only [pageData, dictContains_dictUpdate, getContactsBaseData,
      dictContains_ite, dictContains_dictSet, dictContains_nil, hx]
    simp [PyVal.isNone', dictContains]
  · intro hx
    simp only [pageData, dictContains_dictUpdate, getContactsBaseData,
      dictContains_ite, dictContains_dictSet, dictContains_nil, hx]
    simp [PyVal.isNone', dictContains]
  · intro hx
    simp only [pageData, dictContains_dictUpdate, getContactsBaseData,
      dictContains_ite, dictContains_dictSet, dictContains_nil, hx]
    simp [PyVal.isNone', dictContains]

/-- C3 counterexample: the claim fails on the code.  `link_contact_company`
with `function` left unset still puts the `function` key (as None) into the
payload dict literal; and `add_contact` with `automerge_by_name` left unset
still emits that key (as the integer 0). -/
theorem c3_unset_optionals_counterexample :
    link_contact_company (.vInt 1) (.vInt 2) .vNone =
      ⟨"linkContactToCompany",
       [("contact_id", .vInt 1), ("company_id", .vInt 2), ("mode", .vStr "link"),
        ("function", .vNone)]⟩ ∧
    dictContains [("contact_id", PyVal.vInt 1), ("company_id", PyVal.vInt 2),
      ("mode", PyVal.vStr "link"), ("function", PyVal.vNone)] "function" = true ∧
    add_contact [] [] (addContactDefaults (.vStr "f") (.vStr "s") (.vStr "e")) =
      .ok ⟨"addContact",
        [("self", .vObj), ("forename", .vStr "f"), ("surname", .vStr "s"),
         ("email", .vStr "e"), ("automerge_by_name", .vInt 0),
         ("automerge_by_email", .vInt 0), ("add_tag_by_string", .vStr "")]⟩ ∧
    dictContains
      [("self", PyVal.vObj), ("forename", PyVal.vStr "f"), ("surname", PyVal.vStr "s"),
       ("email", PyVal.vStr "e"), ("automerge_by_name", PyVal.vInt 0),
       ("automerge_by_email", PyVal.vInt 0), ("add_tag_by_string", PyVal.vStr "")]
      "automerge_by_name" = true :=
  ⟨rfl, rfl, rfl, rfl⟩

/-- Witness for the amended C3 at all-default calls: the payloads of
`add_contact("f","s","e")`, `update_contact(1)` and a first-page
`get_contacts()` request omit every unset None-defaulted optional argument,
while the flag keys and link's `function` key are present. -/
theorem c3_unset_optional_arguments_witness :
    ((addContactDefaults (.vStr "f") (.vStr "s") (.vStr "e")).salutation = .vNone →
      dictContains [("self", PyVal.vObj), ("forename", PyVal.vStr "f"), ("surname", PyVal.vStr "s"),
       ("email", PyVal.vStr "e"), ("automerge_by_name", PyVal.vInt 0),
       ("automerge_by_email", PyVal.vInt 0), ("add_tag_by_string", PyVal.vStr "")] "salutation" = false) ∧
    ((addContactDefaults (.vStr "f") (.vStr "s") (.vStr "e")).telephone = .vNone →
      dictContains [("self", PyVal.vObj), ("forename", PyVal.vStr "f"), ("surname", PyVal.vStr "s"),
       ("email", PyVal.vStr "e"), ("automerge_by_name", PyVal.vInt 0),
       ("automerge_by_email", PyVal.vInt 0), ("add_tag_by_string", PyVal.vStr "")] "telephone" = false) ∧
    ((addContactDefaults (.vStr "f") (.vStr "s") (.vStr "e")).gsm = .vNone →
      dictContains [("self", PyVal.vObj), ("forename", PyVal.vStr "f"), ("surname", PyVal.vStr "s"),
       ("email", PyVal.vStr "e"), ("automerge_by_name", PyVal.vInt 0),
       ("automerge_by_email", PyVal.vInt 0), ("add_tag_by_string", PyVal.vStr "")] "gsm" = false) ∧
    ((addContactDefaults (.vStr "f") (.vStr "s") (.vStr "e")).website = .vNone →
      dictContains [("self", PyVal.vObj), ("forename", PyVal.vStr "f"), ("surname", PyVal.vStr "s"),
       ("email", PyVal.vStr "e"), ("automerge_by_name", PyVal.vInt 0),
       ("automerge_by_email", PyVal.vInt 0), ("add_tag_by_string", PyVal.vStr "")] "website" = false) ∧
    ((addContactDefaults (.vStr "f") (.vStr "s") (.vStr "e")).country = .vNone →
      dictContains [("self", PyVal.vObj), ("forename", PyVal.vStr "f"), ("surname", PyVal.vStr "s"),
       ("email", PyVal.vStr "e"), ("automerge_by_name", PyVal.vInt 0),
       ("automerge_by_email", PyVal.vInt 0), ("add_tag_by_string", PyVal.vStr "")] "country" = false) ∧
    ((addContactDefaults (.vStr "f") (.vStr "s") (.vStr "e")).zipcode = .vNone →
      dictContains [("self", PyVal.vObj), ("forename", PyVal.vStr "f"), ("surname", PyVal.vStr "s"),
       ("email", PyVal.vStr "e"), ("automerge_by_name", PyVal.vInt 0),
       ("automerge_by_email", PyVal.vInt 0), ("add_tag_by_string", PyVal.vStr "")] "zipcode" = false) ∧
    ((addContactDefaults (.vStr "f") (.vStr "s") (.vStr "e")).city = .vNone →
      dictContains [("self", PyVal.vObj), ("forename", PyVal.vStr "f"), ("surname", PyVal.vStr "s"),
       ("email", PyVal.vStr "e"), ("automerge_by_name", PyVal.vInt 0),
       ("automerge_by_email", PyVal.vInt 0), ("add_tag_by_string", PyVal.vStr "")] "city" = false) ∧
    ((addContactDefaults (.vStr "f") (.vStr "s") (.vStr "e")).street = .vNone →
      dictContains [("self", PyVal.vObj), ("forename", PyVal.vStr "f"), ("surname", PyVal.vStr "s"),
       ("email", PyVal.vStr "e"), ("automerge_by_name", PyVal.vInt 0),
       ("automerge_by_email", PyVal.vInt 0), ("add_tag_by_string", PyVal.vStr "")] "street" = false) ∧
    ((addContactDefaults (.vStr "f") (.vStr "s") (.vStr "e")).number = .vNone →
      dictContains [("self", PyVal.vObj), ("forename", PyVal.vStr "f"), ("surname", PyVal.vStr "s"),
       ("email", PyVal.vStr "e"), ("automerge_by_name", PyVal.vInt 0),
       ("automerge_by_email", PyVal.vInt 0), ("add_tag_by_string", PyVal.vStr "")] "number" = false) ∧
    ((addContactDefaults (.vStr "f") (.vStr "s") (.vStr "e")).language = .vNone →
      dictContains [("self", PyVal.vObj), ("forename", PyVal.vStr "f"), ("surname", PyVal.vStr "s"),
       ("email", PyVal.vStr "e"), ("automerge_by_name", PyVal.vInt 0),
       ("automerge_by_email", PyVal.vInt 0), ("add_tag_by_string", PyVal.vStr "")] "language" = false) ∧
    ((addContactDefaults (.vStr "f") (.vStr "s") (.vStr "e")).gender = .vNone →
      dictContains [("self", PyVal.vObj), ("forename", PyVal.vStr "f"), ("surname", PyVal.vStr "s"),
       ("email", PyVal.vStr "e"), ("automerge_by_name", PyVal.vInt 0),
       ("automerge_by_email", PyVal.vInt 0), ("add_tag_by_string", PyVal.vStr "")] "gender" = false) ∧
    ((addContactDefaults (.vStr "f") (.vStr "s") (.vStr "e")).description = .vNone →
      dictContains [("self", PyVal.vObj), ("forename", PyVal.vStr "f"), ("surname", PyVal.vStr "s"),
       ("email", PyVal.vStr "e"), ("automerge_by_name", PyVal.vInt 0),
       ("automerge_by_email", PyVal.vInt 0), ("add_tag_by_string", PyVal.vStr "")] "description" = false) ∧
    ((addContactDefaults (.vStr "f") (.vStr "s") (.vStr "e")).tracking = .vNone →
      dictContains [("self", PyVal.vObj), ("forename", PyVal.vStr "f"), ("surname", PyVal.vStr "s"),
       ("email", PyVal.vStr "e"), ("automerge_by_name", PyVal.vInt 0),
       ("automerge_by_email", PyVal.vInt 0), ("add_tag_by_string", PyVal.vStr "")] "tracking" = false) ∧
    ((addContactDefaults (.vStr "f") (.vStr "s") (.vStr "e")).newsletter = .vNone →
      dictContains [("self", PyVal.vObj), ("forename", PyVal.vStr "f"), ("surname", PyVal.vStr "s"),
       ("email", PyVal.vStr "e"), ("automerge_by_name", PyVal.vInt 0),
       ("automerge_by_email", PyVal.vInt 0), ("add_tag_by_string", PyVal.vStr "")] "newsletter" = false) ∧
    ((addContactDefaults (.vStr "f") (.vStr "s") (.vStr "e")).tracking_long = .vNone →
      dictContains [("self", PyVal.vObj), ("forename", PyVal.vStr "f"), ("surname", PyVal.vStr "s"),
       ("email", PyVal.vStr "e"), ("automerge_by_name", PyVal.vInt 0),
       ("automerge_by_email", PyVal.vInt 0), ("add_tag_by_string", PyVal.vStr "")] "tracking_long" = false) ∧
    ((addContactDefaults (.vStr "f") (.vStr "s") (.vStr "e")).date_of_birth = .vNone →
      dictContains [("self", PyVal.vObj), ("forename", PyVal.vStr "f"), ("surname", PyVal.vStr "s"),
       ("email", PyVal.vStr "e"), ("automerge_by_name", PyVal.vInt 0),
       ("automerge_by_email", PyVal.vInt 0), ("add_tag_by_string", PyVal.vStr "")] "date_of_birth" = false) ∧
    dictContains [("self", PyVal.vObj), ("forename", PyVal.vStr "f"), ("surname", PyVal.vStr "s"),
       ("email", PyVal.vStr "e"), ("automerge_by_name", PyVal.vInt 0),
       ("automerge_by_email", PyVal.vInt 0), ("add_tag_by_string", PyVal.vStr "")] "tags" = false ∧
    dictContains [("self", PyVal.vObj), ("forename", PyVal.vStr "f"), ("surname", PyVal.vStr "s"),
       ("email", PyVal.vStr "e"), ("automerge_by_name", PyVal.vInt 0),
       ("automerge_by_email", PyVal.vInt 0), ("add_tag_by_string", PyVal.vStr "")] "custom_fields" = false ∧
    dictContains [("self", PyVal.vObj), ("forename", PyVal.vStr "f"), ("surname", PyVal.vStr "s"),
       ("email", PyVal.vStr "e"), ("automerge_by_name", PyVal.vInt 0),
       ("automerge_by_email", PyVal.vInt 0), ("add_tag_by_string", PyVal.vStr "")] "automerge_by_name" = true ∧
    dictContains [("self", PyVal.vObj), ("forename", PyVal.vStr "f"), ("surname", PyVal.vStr "s"),
       ("email", PyVal.vStr "e"), ("automerge_by_name", PyVal.vInt 0),
       ("automerge_by_email", PyVal.vInt 0), ("add_tag_by_string", PyVal.vStr "")] "automerge_by_email" = true ∧
    ((updateContactDefaults (.vInt 1)).forename = .vNone →
      dictContains [("self", PyVal.vObj), ("contact_id", PyVal.vInt 1),
       ("track_changes", PyVal.vBool true), ("add_tag_by_string", PyVal.vStr ""),
       ("remove_tag_by_string", PyVal.vStr "")] "forename" = false) ∧
    ((updateContactDefaults (.vInt 1)).surname = .vNone →
      dictContains [("self", PyVal.vObj), ("contact_id", PyVal.vInt 1),
       ("track_changes", PyVal.vBool true), ("add_tag_by_string", PyVal.vStr ""),
       ("remove_tag_by_string", PyVal.vStr "")] "surname" = false) ∧
    ((updateContactDefaults (.vInt 1)).email = .vNone →
      dictContains [("self", PyVal.vObj), ("contact_id", PyVal.vInt 1),
       ("track_changes", PyVal.vBool true), ("add_tag_by_string", PyVal.vStr ""),
       ("remove_tag_by_string", PyVal.vStr "")] "email" = false) ∧
    ((updateContactDefaults (.vInt 1)).telephone = .vNone →
      dictContains [("self", PyVal.vObj), ("contact_id", PyVal.vInt 1),
       ("track_changes", PyVal.vBool true), ("add_tag_by_string", PyVal.vStr ""),
       ("remove_tag_by_string", PyVal.vStr "")] "telephone" = false) ∧
    ((updateContactDefaults (.vInt 1)).gsm = .vNone →
      dictContains [("self", PyVal.vObj), ("contact_id", PyVal.vInt 1),
       ("track_changes", PyVal.vBool true), ("add_tag_by_string", PyVal.vStr ""),
       ("remove_tag_by_string", PyVal.vStr "")] "gsm" = false) ∧
    ((updateContactDefaults (.vInt 1)).website = .vNone →
      dictContains [("self", PyVal.vObj), ("contact_id", PyVal.vInt 1),
       ("track_changes", PyVal.vBool true), ("add_tag_by_string", PyVal.vStr ""),
       ("remove_tag_by_string", PyVal.vStr "")] "website" = false) ∧
    ((updateContactDefaults (.vInt 1)).country = .vNone →
      dictContains [("self", PyVal.vObj), ("contact_id", PyVal.vInt 1),
       ("track_changes", PyVal.vBool true), ("add_tag_by_string", PyVal.vStr ""),
       ("remove_tag_by_string", PyVal.vStr "")] "country" = false) ∧
    ((updateContactDefaults (.vInt 1)).zipcode = .vNone →
      dictContains [("self", PyVal.vObj), ("contact_id", PyVal.vInt 1),
       ("track_changes", PyVal.vBool true), ("add_tag_by_string", PyVal.vStr ""),
       ("remove_tag_by_string", PyVal.vStr "")] "zipcode" = false) ∧
    ((updateContactDefaults (.vInt 1)).city = .vNone →
      dictContains [("self", PyVal.vObj), ("contact_id", PyVal.vInt 1),
       ("track_changes", PyVal.vBool true), ("add_tag_by_string", PyVal.vStr ""),
       ("remove_tag_by_string", PyVal.vStr "")] "city" = false) ∧
    ((updateContactDefaults (.vInt 1)).street = .vNone →
      dictContains [("self", PyVal.vObj), ("contact_id", PyVal.vInt 1),
       ("track_changes", PyVal.vBool true), ("add_tag_by_string", PyVal.vStr ""),
       ("remove_tag_by_string", PyVal.vStr "")] "street" = false) ∧
    ((updateContactDefaults (.vInt 1)).number = .vNone →
      dictContains [("self", PyVal.vObj), ("contact_id", PyVal.vInt 1),
       ("track_changes", PyVal.vBool true), ("add_tag_by_string", PyVal.vStr ""),
       ("remove_tag_by_string", PyVal.vStr "")] "number" = false) ∧
    ((updateContactDefaults (.vInt 1)).language = .vNone →
      dictContains [("self", PyVal.vObj), ("contact_id", PyVal.vInt 1),
       ("track_changes", PyVal.vBool true), ("add_tag_by_string", PyVal.vStr ""),
       ("remove_tag_by_string", PyVal.vStr "")] "language" = false) ∧
    ((updateContactDefaults (.vInt 1)).gender = .vNone →
      dictContains [("self", PyVal.vObj), ("contact_id", PyVal.vInt 1),
       ("track_changes", PyVal.vBool true), ("add_tag_by_string", PyVal.vStr ""),
       ("remove_tag_by_string", PyVal.vStr "")] "gender" = false) ∧
    ((updateContactDefaults (.vInt 1)).description = .vNone →
      dictContains [("self", PyVal.vObj), ("contact_id", PyVal.vInt 1),
       ("track_changes", PyVal.vBool true), ("add_tag_by_string", PyVal.vStr ""),
       ("remove_tag_by_string", PyVal.vStr "")] "description" = false) ∧
    ((updateContactDefaults (.vInt 1)).date_of_birth = .vNone →
      dictContains [("self", PyVal.vObj), ("contact_id", PyVal.vInt 1),
       ("track_changes", PyVal.vBool true), ("add_tag_by_string", PyVal.vStr ""),
       ("remove_tag_by_string", PyVal.vStr "")] "date_of_birth" = false) ∧
    ((updateContactDefaults (.vInt 1)).linked_company_ids = .vNone →
      dictContains [("self", PyVal.vObj), ("contact_id", PyVal.vInt 1),
       ("track_changes", PyVal.vBool true), ("add_tag_by_string", PyVal.vStr ""),
       ("remove_tag_by_string", PyVal.vStr "")] "linked_company_ids" = false) ∧
    dictContains [("self", PyVal.vObj), ("contact_id", PyVal.vInt 1),
       ("track_changes", PyVal.vBool true), ("add_tag_by_string", PyVal.vStr ""),
       ("remove_tag_by_string", PyVal.vStr "")] "tags" = false ∧
    dictContains [("self", PyVal.vObj), ("contact_id", PyVal.vInt 1),
       ("track_changes", PyVal.vBool true), ("add_tag_by_string", PyVal.vStr ""),
       ("remove_tag_by_string", PyVal.vStr "")] "del_tags" = false ∧
    dictContains [("self", PyVal.vObj), ("contact_id", PyVal.vInt 1),
       ("track_changes", PyVal.vBool true), ("add_tag_by_string", PyVal.vStr ""),
       ("remove_tag_by_string", PyVal.vStr "")] "custom_fields" = false ∧
    dictContains [("self", PyVal.vObj), ("contact_id", PyVal.vInt 1),
       ("track_changes", PyVal.vBool true), ("add_tag_by_string", PyVal.vStr ""),
       ("remove_tag_by_string", PyVal.vStr "")] "track_changes" = true ∧
    dictContains (link_contact_company (.vInt 1) (.vInt 2) .vNone).data "function" = true ∧
    (getContactsDefaults.query.isNone' = true →
      dictContains (pageData (getContactsBaseData getContactsDefaults) 0) "searchby" = false) ∧
    (getContactsDefaults.modified_since.isNone' = true →
      dictContains (pageData (getContactsBaseData getContactsDefaults) 0) "modifiedsince" = false) ∧
    (getContactsDefaults.filter_by_tag.isNone' = true →
      dictContains (pageData (getContactsBaseData getContactsDefaults) 0) "filter_by_tag" = false) ∧
    (getContactsDefaults.segment_id.isNone' = true →
      dictContains (pageData (getContactsBaseData getContactsDefaults) 0) "segment_id" = false) ∧
    (getContactsDefaults.selected_customfields = [] →
      dictContains (pageData (getContactsBaseData getContactsDefaults) 0) "selected_customfields" = false) :=
  c3_unset_optional_arguments [] [] (addContactDefaults (.vStr "f") (.vStr "s") (.vStr "e"))
    (updateContactDefaults (.vInt 1)) getContactsDefaults (.vInt 1) (.vInt 2) 0
    ⟨"addContact",
     [("self", PyVal.vObj), ("forename", PyVal.vStr "f"), ("surname", PyVal.vStr "s"),
       ("email", PyVal.vStr "e"), ("automerge_by_name", PyVal.vInt 0),
       ("automerge_by_email", PyVal.vInt 0), ("add_tag_by_string", PyVal.vStr "")]⟩
    ⟨"updateContact",
     [("self", PyVal.vObj), ("contact_id", PyVal.vInt 1),
       ("track_changes", PyVal.vBool true), ("add_tag_by_string", PyVal.vStr ""),
       ("remove_tag_by_string", PyVal.vStr "")]⟩
    rfl rfl

end Teamleader
